import Mathlib

/-!
Verification development for the LuluTracker product-monitoring engine
(`background.js`).  The JavaScript source is shallowly embedded: page
content is modelled by the structured data the parser actually inspects
(the post-JSON.parse payloads, the rendered-text flags and the regex price
match), numbers produced by `parseFloat` are modelled as `Option ℚ` with
`none` standing for an absent or unparsable (NaN) value, and JavaScript
truthiness of strings/numbers is made explicit (`strTruthy`, `numTruthy`).
Network I/O is an oracle `String → Option Html` (`none` = HTTP error or
network failure), and `Date.now()` is a `now : Nat` parameter.
-/

namespace LuluTracker

/-- One entry of an `availableColors` list: a color code/name pair. -/
structure Color where
  code : String
  name : String
  deriving DecidableEq, Repr

/-- The `lastChange` bookkeeping record stored on a tracked product. -/
structure LastChange where
  type : String
  timestamp : Nat
  deriving DecidableEq, Repr

/-- A persisted tracked item (one monitored product+color+size variant),
with the fields read or written by `background.js`.  `stockStatus` is a
plain string, as in the JavaScript source, so that the three-valued-enum
invariant is a real theorem rather than a typing artifact. -/
structure Product where
  productId : String
  color : String
  size : String
  name : String
  productLine : String
  url : String
  region : String
  image : String
  currentPrice : Option ℚ
  originalPrice : Option ℚ
  onSale : Bool
  stockStatus : String
  availableColors : List Color
  trackNewColors : Bool
  markdownUrl : Option String
  addedAt : Nat
  lastChecked : Nat
  lastChange : Option LastChange
  deriving DecidableEq, Repr

/-- The ephemeral extraction result built by `parseProductHtml`. -/
structure Snapshot where
  currentPrice : Option ℚ
  originalPrice : Option ℚ
  onSale : Bool
  stockStatus : String
  availableColors : List Color
  deriving DecidableEq, Repr

/-- Per-SKU price data (`sku.price`).  `listPrice` is the raw
`parseFloat` result (`none` = field absent or NaN); `salePrice` is the
value of the source's `price.salePrice ? parseFloat(price.salePrice) :
null` ternary, so `none` also covers a falsy raw field. -/
structure PriceInfo where
  listPrice : Option ℚ
  salePrice : Option ℚ
  deriving DecidableEq, Repr

/-- One SKU (color x size cell) of the US-site structured payload.
`color` is `s.color?.code`; `available` is the truthiness of the
boolean-or-numeric `available` field. -/
structure Sku where
  color : Option String
  size : Option String
  available : Bool
  price : Option PriceInfo
  deriving DecidableEq, Repr

/-- One `colorDriver` entry: a color code with its declared size list. -/
structure ColorDriver where
  color : String
  sizes : List String
  deriving DecidableEq, Repr

/-- The query payload selected out of `__NEXT_DATA__` (the first query
whose data has both `productSummary` and `skus`).  `isSoldOut` is the
truthiness of `productSummary?.isSoldOut`; the three identifier fields
feed the synthesized clearance URL. -/
structure QueryData where
  isSoldOut : Bool
  colors : Option (List Color)
  skus : List Sku
  colorDriver : Option (List ColorDriver)
  productId : Option String
  unifiedId : Option String
  parentCategoryUnifiedId : Option String
  deriving DecidableEq, Repr

/-- One variant of a JSON-LD `ProductGroup` (SFCC international sites).
`price` is the `parseFloat(offers?.price)` result; `availability` is
`offers?.availability || ''`. -/
structure LdVariant where
  color : Option String
  size : Option String
  price : Option ℚ
  availability : String
  deriving DecidableEq, Repr

/-- A parsed JSON-LD `ProductGroup` block.  Blocks that fail to parse or
are not ProductGroups are skipped by the source loop and hence omitted
from the model. -/
structure LdGroup where
  name : String
  hasVariant : List LdVariant
  deriving DecidableEq, Repr

/-- The parts of a fetched HTML document that `parseProductHtml` and
`checkMarkdownTransition` inspect.  `nextData = none` models a page with
no `__NEXT_DATA__` script tag; `some none` models a tag whose JSON fails
to parse or contains no query with `productSummary` and `skus`;
`some (some qd)` is a usable payload.  The three booleans are the
rendered-text stock signals, and `fallbackPrice` is the regex price
match. -/
structure Html where
  nextData : Option (Option QueryData)
  ldGroups : List LdGroup
  hasLowStockText : Bool
  hasSoldOutText : Bool
  hasVisibleLowStockSFCC : Bool
  fallbackPrice : Option ℚ
  deriving DecidableEq, Repr

/-- The page-content provider: `none` models an HTTP error status or a
network failure. -/
abbrev Oracle := String → Option Html

-- ── JavaScript-semantics helpers ──────────────────────────────────────

/-- JavaScript truthiness of a string (empty string is falsy). -/
def strTruthy (s : String) : Bool := s ≠ ""

/-- JavaScript truthiness of a number-or-null value (null, 0 and NaN are
falsy; NaN is folded into `none` at the model boundary). -/
def numTruthy (x : Option ℚ) : Bool :=
  match x with
  | some q => q ≠ 0
  | none => false

/-- The source idiom `parseFloat(x) || null`: a zero or unparsable result
becomes null. -/
def jsOrNull (x : Option ℚ) : Option ℚ :=
  match x with
  | some q => if q = 0 then none else some q
  | none => none

/-- Whether `pat` is an initial segment of `s` (character lists). -/
def listStartsWith : List Char → List Char → Bool
  | [], _ => true
  | _ :: _, [] => false
  | p :: ps, c :: cs => p == c && listStartsWith ps cs

/-- Split a character list at every occurrence of a non-empty pattern;
`fuel` bounds the recursion so that the definition is structural (and
hence evaluable inside the kernel) — callers pass at least the input
length plus one. -/
def splitGo (pat : List Char) (fuel : Nat) (s acc : List Char) : List (List Char) :=
  match fuel with
  | 0 => [acc.reverse ++ s]
  | fuel' + 1 =>
    match s with
    | [] => [acc.reverse]
    | c :: rest =>
      if listStartsWith pat s then acc.reverse :: splitGo pat fuel' (s.drop pat.length) []
      else splitGo pat fuel' rest (c :: acc)

/-- `String.prototype.split` with a string separator (the semantics of
`String.splitOn`, restated by structural recursion so that concrete
instances reduce inside the kernel). -/
def strSplitOn (s pat : String) : List String :=
  match pat.toList with
  | [] => [s]
  | p :: ps => (splitGo (p :: ps) (s.toList.length + 1) s.toList []).map List.asString

/-- `String.prototype.startsWith`. -/
def strStartsWith (s pre : String) : Bool := listStartsWith pre.toList s.toList

/-- `String.prototype.endsWith`. -/
def strEndsWith (s suffix : String) : Bool :=
  listStartsWith suffix.toList.reverse s.toList.reverse

/-- Substring test (used for the source's `String.prototype.includes`). -/
def strContains (s pat : String) : Bool := (strSplitOn s pat).length > 1

-- ── URL helpers ───────────────────────────────────────────────────────

/-- Query parameters of a URL: the fragment is stripped, the part after
the first `?` is split on `&`, and each entry on its first `=`
(percent-decoding is elided; the color codes and sizes handled by the
tracker are plain alphanumerics). -/
def queryParams (url : String) : List (String × String) :=
  let noFrag := (strSplitOn url "#").headD url
  match strSplitOn noFrag "?" with
  | [] => []
  | [_] => []
  | _ :: rest =>
    let search := String.intercalate "?" rest
    (strSplitOn search "&").filterMap fun kv =>
      if kv = "" then none
      else
        match strSplitOn kv "=" with
        | [] => none
        | [k] => some (k, "")
        | k :: vs => some (k, String.intercalate "=" vs)

/-- Extract a color code from a product URL, as `getColorCodeFromUrl`:
first the US `color` parameter (if truthy), then the first
`dwvar_*_color` parameter.  A URL the `URL` constructor would reject
(no scheme separator) yields `none`. -/
def getColorCodeFromUrl (url : String) : Option String :=
  if ¬ strContains url "://" then none
  else
    let ps := queryParams url
    let dwvar := (ps.find? fun p => strStartsWith p.1 "dwvar_" && strEndsWith p.1 "_color").map (·.2)
    match ps.find? (fun p => p.1 = "color") with
    | some kv => if kv.2 = "" then dwvar else some kv.2
    | none => dwvar

/-- The per-cycle fetch-cache key: `product.url.split('?')[0]`. -/
def baseUrlOf (url : String) : String := (strSplitOn url "?").headD url

/-- The derived clearance URL: insert `-MD` before the first `/_/` of the
path (`url.replace(/(\/_\/)/, '-MD$1')`); a URL without `/_/` is
unchanged. -/
def mdUrlOf (url : String) : String :=
  match strSplitOn url "/_/" with
  | [] => url
  | [s] => s
  | s :: rest => s ++ "-MD/_/" ++ String.intercalate "/_/" rest

/-- Whether a URL belongs to an international (SFCC) storefront, as
computed at the top of `parseProductHtml`. -/
def isIntlUrl (url : String) : Bool :=
  strContains url ".html" || strContains url "lululemon.com.hk" ||
    strContains url "lululemon.com.au"

-- ── Snapshot extractor (`parseProductHtml`) ───────────────────────────

/-- The initial extraction result (`in_stock`, null prices, no colors). -/
def emptySnapshot : Snapshot :=
  { currentPrice := none, originalPrice := none, onSale := false,
    stockStatus := "in_stock", availableColors := [] }

/-- SKU selection predicate: color code equals the hint and the size
matches (any size when the product has no selected size). -/
def skuMatches (cc size : String) (s : Sku) : Bool :=
  s.color == some cc && (!strTruthy size || size == "Not selected" || s.size == some size)

/-- Strategy 1, step: `productSummary?.isSoldOut` forces `sold_out`. -/
def applySoldOutFlag (qd : QueryData) (r : Snapshot) : Snapshot :=
  if qd.isSoldOut then { r with stockStatus := "sold_out" } else r

/-- Strategy 1, step: copy the payload's color list when present. -/
def applyColors (qd : QueryData) (r : Snapshot) : Snapshot :=
  match qd.colors with
  | some cs => { r with availableColors := cs }
  | none => r

/-- Strategy 1, step: price of the matched SKU.  Current price is the
list price, unless a truthy sale price strictly below a truthy list
price exists, in which case current=sale, original=list, onSale=true. -/
def applySkuPrice (sku : Sku) (r : Snapshot) : Snapshot :=
  match sku.price with
  | none => r
  | some pr =>
    let listP := jsOrNull pr.listPrice
    let saleP := pr.salePrice
    let r1 := { r with currentPrice := listP }
    if numTruthy saleP ∧ numTruthy listP ∧ saleP.getD 0 < listP.getD 0 then
      { r1 with originalPrice := listP, currentPrice := saleP, onSale := true }
    else r1

/-- Strategy 1, step: a falsy per-SKU `available` field forces
`sold_out`. -/
def applySkuStock (sku : Sku) (r : Snapshot) : Snapshot :=
  if !sku.available then { r with stockStatus := "sold_out" } else r

/-- Strategy 1, fallback when no SKU matched: if the color's declared
size list omits the hinted size, mark `sold_out`. -/
def applyColorDriver (qd : QueryData) (cc size : String) (r : Snapshot) : Snapshot :=
  if strTruthy size ∧ size ≠ "Not selected" then
    match (qd.colorDriver.getD []).find? (fun cd => cd.color == cc) with
    | some cd => if ¬ (cd.sizes.contains size) then { r with stockStatus := "sold_out" } else r
    | none => r
  else r

/-- Strategy 1, final step: when no current price was resolved and the
payload has SKUs, use the first SKU's list price. -/
def applyFirstSkuPrice (qd : QueryData) (r : Snapshot) : Snapshot :=
  if ¬ numTruthy r.currentPrice ∧ 0 < qd.skus.length then
    match qd.skus.head? with
    | some s => { r with currentPrice := jsOrNull (s.price.bind (·.listPrice)) }
    | none => r
  else r

/-- Strategy 1, SKU block: when the URL carries a truthy color code,
price and stock from the matching SKU, else the colorDriver fallback. -/
def stage1Sku (qd : QueryData) (url size : String) (r : Snapshot) : Snapshot :=
  match getColorCodeFromUrl url with
  | some cc =>
    if strTruthy cc then
      match qd.skus.find? (skuMatches cc size) with
      | some sku => applySkuStock sku (applySkuPrice sku r)
      | none => applyColorDriver qd cc size r
    else r
  | none => r

/-- Strategy 1: the `__NEXT_DATA__` structured catalog payload
(`background.js` lines 250-334), over the tracked item's url and size. -/
def stage1 (qd : QueryData) (url size : String) (r0 : Snapshot) : Snapshot :=
  applyFirstSkuPrice qd (stage1Sku qd url size (applyColors qd (applySoldOutFlag qd r0)))

/-- Available colors of a JSON-LD group: variants deduplicated by color
name, first occurrence kept, name used as both code and name. -/
def ldDedupColors (vs : List LdVariant) : List Color :=
  vs.foldl
    (fun acc v =>
      match v.color with
      | some cn => if strTruthy cn ∧ ¬ acc.any (fun c => c.code == cn) then acc ++ [⟨cn, cn⟩] else acc
      | none => acc)
    []

/-- Strategy 2, step: price from the first variant of the tracked
color, taken only when strictly positive. -/
def stage2Price (v0 : LdVariant) (r : Snapshot) : Snapshot :=
  match v0.price with
  | some q => if 0 < q then { r with currentPrice := some q } else r
  | none => r

/-- Strategy 2, step: `sold_out` when the size-matched variant's
availability string carries an out-of-stock marker. -/
def stage2SizeStock (colorVariants : List LdVariant) (size : String) (r : Snapshot) : Snapshot :=
  if strTruthy size ∧ size ≠ "Not selected" then
    match colorVariants.find? (fun v => v.size == some size) with
    | some sm =>
      if strContains sm.availability "OutOfStock" then { r with stockStatus := "sold_out" } else r
    | none => r
  else r

/-- Strategy 2, step: `sold_out` when every variant of the tracked color
is out of stock. -/
def stage2AllOut (colorVariants : List LdVariant) (r : Snapshot) : Snapshot :=
  if colorVariants.all (fun v => strContains v.availability "OutOfStock") then
    { r with stockStatus := "sold_out" }
  else r

/-- Strategy 2, price and stock once the tracked color's variant list is
known: nothing when it is empty, else price from the first variant, then
the size-specific and all-sizes stock checks. -/
def stage2Match (colorVariants : List LdVariant) (size : String) (r : Snapshot) : Snapshot :=
  match colorVariants with
  | [] => r
  | v0 :: rest => stage2AllOut (v0 :: rest) (stage2SizeStock (v0 :: rest) size (stage2Price v0 r))

/-- Strategy 2: the JSON-LD `ProductGroup` payload (`background.js`
lines 338-400): the deduplicated color list overwrites `availableColors`
unconditionally, and variants are matched by the tracked color name. -/
def stage2 (g : LdGroup) (colorName size : String) (r0 : Snapshot) : Snapshot :=
  stage2Match
    (if strTruthy colorName then g.hasVariant.filter (fun v => v.color == some colorName) else [])
    size { r0 with availableColors := ldDedupColors g.hasVariant }

/-- US text fallback, low-stock step (`background.js` lines 410-418):
server-rendered low-stock text upgrades any non-sold-out status to
`low_stock`. -/
def usLowStockText (html : Html) (r : Snapshot) : Snapshot :=
  if html.hasLowStockText then
    if r.stockStatus ≠ "sold_out" then { r with stockStatus := "low_stock" } else r
  else r

/-- US text fallback, sold-out step (`background.js` lines 420-424):
sold-out text applies only while the status is still unresolved. -/
def usSoldOutText (html : Html) (r : Snapshot) : Snapshot :=
  if r.stockStatus ≠ "sold_out" ∧ r.stockStatus ≠ "low_stock" then
    if html.hasSoldOutText then { r with stockStatus := "sold_out" } else r
  else r

/-- Rendered-text stock fallback (`background.js` lines 406-438): on US
pages the low-stock then sold-out text checks; on SFCC pages only a
visibly rendered low-stock warning is trusted. -/
def stockFallback (html : Html) (url : String) (r : Snapshot) : Snapshot :=
  if ¬ isIntlUrl url then usSoldOutText html (usLowStockText html r)
  else
    if r.stockStatus = "in_stock" ∧ html.hasVisibleLowStockSFCC then
      { r with stockStatus := "low_stock" }
    else r

/-- Regex price fallback (`background.js` lines 444-450). -/
def priceFallback (html : Html) (r : Snapshot) : Snapshot :=
  if ¬ numTruthy r.currentPrice then
    match html.fallbackPrice with
    | some q => { r with currentPrice := some q }
    | none => r
  else r

/-- The extractor over the fields it actually reads (`url`, `size`,
`color` of the tracked item). -/
def parseCore (html : Html) (url size colorName : String) : Snapshot :=
  let r1 :=
    match html.nextData with
    | some (some qd) => stage1 qd url size emptySnapshot
    | _ => emptySnapshot
  let r2 :=
    if isIntlUrl url || html.nextData.isNone then
      match html.ldGroups.head? with
      | some g => stage2 g colorName size r1
      | none => r1
    else r1
  priceFallback html (stockFallback html url r2)

/-- `parseProductHtml(html, product)`: ordered fallback extraction of a
`Snapshot` from fetched page content. -/
def parseProductHtml (html : Html) (p : Product) : Snapshot :=
  parseCore html p.url p.size p.color

/-- `fetchProductStatus(product)`: fetch the item's page and parse it;
an HTTP or network failure yields `none`. -/
def fetchProductStatus (o : Oracle) (p : Product) : Option Snapshot :=
  (o p.url).map fun h => parseProductHtml h p

-- ── Change detector (`detectChanges`) ─────────────────────────────────

/-- The typed change events produced by a diff or the markdown resolver.
The `moved_to_markdown` payload carries `salePrice || '?'` and
`listPrice || '?'`, with `none` standing for the `'?'` sentinel. -/
inductive ChangeEvent where
  | status_change (fromStatus toStatus : String)
  | price_change (fromPrice toPrice : ℚ)
  | went_on_sale
  | new_color (color : String)
  | moved_to_markdown (salePrice listPrice : Option ℚ)
  deriving DecidableEq, Repr

/-- Recognizer for `status_change` events. -/
def isStatusChange : ChangeEvent → Bool
  | .status_change _ _ => true
  | _ => false

/-- Recognizer for `c.type === 'status_change' && c.to === 'sold_out'`. -/
def isStatusToSoldOut : ChangeEvent → Bool
  | .status_change _ t => t == "sold_out"
  | _ => false

/-- Recognizer for `new_color` events. -/
def isNewColor : ChangeEvent → Bool
  | .new_color _ => true
  | _ => false

/-- Recognizer for `moved_to_markdown` events. -/
def isMovedToMarkdown : ChangeEvent → Bool
  | .moved_to_markdown _ _ => true
  | _ => false

/-- The `type` string of an event, as stored into `lastChange`. -/
def eventType : ChangeEvent → String
  | .status_change _ _ => "status_change"
  | .price_change _ _ => "price_change"
  | .went_on_sale => "went_on_sale"
  | .new_color _ => "new_color"
  | .moved_to_markdown _ _ => "moved_to_markdown"

/-- Stock availability block of the diff: one `status_change` event when
the stored and fresh statuses differ. -/
def statusEvents (old : Product) (nd : Snapshot) : List ChangeEvent :=
  if old.stockStatus ≠ nd.stockStatus then
    [ChangeEvent.status_change old.stockStatus nd.stockStatus]
  else []

/-- Price block of the diff: one `price_change` event when both prices
are truthy and unequal (a null-to-known transition is a data fill, not a
change). -/
def priceEvents (old : Product) (nd : Snapshot) : List ChangeEvent :=
  match old.currentPrice, nd.currentPrice with
  | some a, some b =>
    if a ≠ 0 ∧ b ≠ 0 ∧ a ≠ b then [ChangeEvent.price_change a b] else []
  | _, _ => []

/-- Sale block of the diff: one `went_on_sale` event on a false-to-true
`onSale` transition. -/
def saleEvents (old : Product) (nd : Snapshot) : List ChangeEvent :=
  if ¬ old.onSale ∧ nd.onSale then [ChangeEvent.went_on_sale] else []

/-- New-color block of the diff: one `new_color` event per fresh color
whose code is absent from the stored set.  The source guard
`oldProduct.availableColors && newData.availableColors` is satisfied by
any array, including an empty one, so it reduces to `trackNewColors` in
this model (persisted items carry an array). -/
def newColorEvents (old : Product) (nd : Snapshot) : List ChangeEvent :=
  if old.trackNewColors then
    (nd.availableColors.filter
        (fun c => ¬ (old.availableColors.map (·.code)).contains c.code)).map
      (fun c => ChangeEvent.new_color c.name)
  else []

/-- `detectChanges(oldProduct, newData)`: pure ordered diff of a stored
item against a fresh snapshot (`background.js` lines 558-597), in source
order: status, price, sale, new colors. -/
def detectChanges (old : Product) (nd : Snapshot) : List ChangeEvent :=
  statusEvents old nd ++ priceEvents old nd ++ saleEvents old nd ++ newColorEvents old nd

-- ── Markdown transition resolver (`checkMarkdownTransition`) ──────────

/-- A resolved normal-to-clearance transition: the synthesized clearance
URL and the `moved_to_markdown` payload. -/
structure MarkdownTransition where
  discountUrl : String
  salePrice : Option ℚ
  listPrice : Option ℚ
  deriving DecidableEq, Repr

/-- The clearance destination URL, synthesized from identifiers of the
clearance payload itself (`background.js` line 537). -/
def discountUrlOf (qd : QueryData) (tc size : String) : String :=
  "https://shop.lululemon.com/p/" ++ qd.parentCategoryUnifiedId.getD "" ++ "/" ++
    qd.unifiedId.getD "" ++ "/_/" ++ qd.productId.getD "" ++ "?color=" ++ tc ++
    (if strTruthy size ∧ size ≠ "Not selected" then "&sz=" ++ size else "")

/-- The resolver over the tracked item's fields it reads (`url`, `size`,
`currentPrice`).  Any failure (fetch error, missing or unparsable
`__NEXT_DATA__`, color not on the clearance page) yields `none`. -/
def checkMarkdownCore (o : Oracle) (url size : String) (curPrice : Option ℚ)
    (newData : Snapshot) : Option MarkdownTransition :=
  match getColorCodeFromUrl url with
  | none => none
  | some tc =>
    if ¬ strTruthy tc then none
    else if newData.availableColors.any (fun c => c.code == tc) then none
    else
      match o (mdUrlOf url) with
      | none => none
      | some html =>
        match html.nextData with
        | some (some qd) =>
          match (qd.colors.getD []).find? (fun c => c.code == tc) with
          | none => none
          | some _ =>
            let mdSku := qd.skus.find? (skuMatches tc size)
            let salePrice := (mdSku.bind (·.price)).bind (·.salePrice)
            let listPrice :=
              match (mdSku.bind (·.price)).bind (·.listPrice) with
              | some l => some l
              | none => curPrice
            some
              { discountUrl := discountUrlOf qd tc size,
                salePrice := if numTruthy salePrice then salePrice else none,
                listPrice := if numTruthy listPrice then listPrice else none }
        | _ => none

/-- `checkMarkdownTransition(product, newData)` (`background.js` lines
470-554). -/
def checkMarkdownTransition (o : Oracle) (p : Product) (newData : Snapshot) :
    Option MarkdownTransition :=
  checkMarkdownCore o p.url p.size p.currentPrice newData

-- ── Check orchestrator (`checkAllProducts`) ───────────────────────────

/-- Per-cycle mutable state: the fetch cache keyed by base URL and the
set of productIds that already sent a new-color notification. -/
structure StepState where
  cache : List (String × Snapshot)
  notified : List String
  deriving Repr

/-- The record produced for one tracked item in one cycle: the input
item, the merged updated item, the snapshot used (none on fetch
failure), the events notified for this item in notification order, the
resolved markdown transition, and the URL of the page fetch this item
issued (none when the per-cycle cache was hit). -/
structure StepResult where
  product : Product
  updated : Product
  snap : Option Snapshot
  events : List ChangeEvent
  md : Option MarkdownTransition
  issuedFetch : Option String
  deriving Repr

/-- The merged item pushed onto `updatedProducts` (`background.js` lines
171-184): snapshot fields overwrite the stored ones, except that null
prices and an empty color list keep the prior values, a resolved
markdown transition forces `in_stock` and sets `markdownUrl`, and the
bookkeeping fields are stamped. -/
def mergeSnapshot (now : Nat) (product : Product) (nd : Snapshot)
    (md : Option MarkdownTransition) (changes2 : List ChangeEvent) : Product :=
  { product with
    currentPrice := match nd.currentPrice with | some q => some q | none => product.currentPrice,
    originalPrice := match nd.originalPrice with | some q => some q | none => product.originalPrice,
    onSale := nd.onSale,
    stockStatus := if md.isSome then "in_stock" else nd.stockStatus,
    availableColors :=
      if 0 < nd.availableColors.length then nd.availableColors else product.availableColors,
    lastChecked := now,
    lastChange :=
      if 0 < changes2.length ∨ md.isSome then
        some { type := if md.isSome then "moved_to_markdown"
                       else ((changes2.head?.map eventType).getD "undefined"),
               timestamp := now }
      else product.lastChange,
    markdownUrl := match md with | some t => some t.discountUrl | none => product.markdownUrl }

/-- Per-cycle new-color dedup (`background.js` lines 139-141): when this
productId already sent a new-color notification this cycle, drop the
duplicate `new_color` events. -/
def dedupFilter (notified : List String) (pid : String) (changes0 : List ChangeEvent) :
    List ChangeEvent :=
  if strTruthy pid && notified.contains pid then
    changes0.filter (fun c => !(isNewColor c))
  else changes0

/-- Marking step of the dedup (`background.js` lines 144-146): record
the productId once it emits a `new_color` event. -/
def notifiedAfter (notified : List String) (pid : String) (changes1 : List ChangeEvent) :
    List String :=
  if changes1.any isNewColor && strTruthy pid then pid :: notified else notified

/-- The markdown trigger condition and resolver call (`background.js`
lines 148-154): only for non-clearance, non-SFCC URLs, and only when a
sold-out transition was detected or new-color tracking is on. -/
def mdDecision (o : Oracle) (p : Product) (nd : Snapshot) (changes1 : List ChangeEvent) :
    Option MarkdownTransition :=
  if !(strContains p.url "-MD/") && !(strContains p.url ".html") &&
      (changes1.any isStatusToSoldOut || p.trackNewColors) then
    checkMarkdownTransition o p nd
  else none

/-- Suppression of the redundant sold-out event once a markdown
transition resolved (`background.js` line 156). -/
def soldOutFilter (md : Option MarkdownTransition) (changes1 : List ChangeEvent) :
    List ChangeEvent :=
  if md.isSome then changes1.filter (fun c => !(isStatusToSoldOut c)) else changes1

/-- The notification emitted for a resolved markdown transition
(`background.js` lines 157-161). -/
def mdEvents (md : Option MarkdownTransition) : List ChangeEvent :=
  match md with
  | some t => [ChangeEvent.moved_to_markdown t.salePrice t.listPrice]
  | none => []

/-- The part of the `checkAllProducts` loop body that runs once a
snapshot for the item is available (`background.js` lines 134-184):
diff, per-cycle new-color dedup, markdown resolution, event
notification, and merge. -/
def processSnap (o : Oracle) (now : Nat) (st : StepState) (product : Product)
    (nd : Snapshot) (cache1 : List (String × Snapshot)) (issued : Option String) :
    StepResult × StepState :=
  let changes1 := dedupFilter st.notified product.productId (detectChanges product nd)
  let md := mdDecision o product nd changes1
  let changes2 := soldOutFilter md changes1
  ({ product := product, updated := mergeSnapshot now product nd md changes2,
     snap := some nd, events := mdEvents md ++ changes2, md := md, issuedFetch := issued },
   { cache := cache1, notified := notifiedAfter st.notified product.productId changes1 })

/-- One iteration of the `checkAllProducts` loop body (`background.js`
lines 116-189) for a single tracked item, threading the per-cycle
state: resolve the snapshot through the per-cycle cache (a fetch failure
retains the item unchanged), then process it. -/
def stepItem (o : Oracle) (now : Nat) (st : StepState) (product : Product) :
    StepResult × StepState :=
  let base := baseUrlOf product.url
  match st.cache.lookup base with
  | some s => processSnap o now st product s st.cache none
  | none =>
    match fetchProductStatus o product with
    | some nd => processSnap o now st product nd ((base, nd) :: st.cache) (some product.url)
    | none =>
      ({ product := product, updated := product, snap := none, events := [],
         md := none, issuedFetch := some product.url },
       { cache := st.cache, notified := st.notified })

/-- The `checkAllProducts` loop over the item list, threading the
per-cycle cache and dedup set. -/
def runCycleGo (o : Oracle) (now : Nat) : StepState → List Product → List StepResult
  | _, [] => []
  | st, p :: rest =>
    let pr := stepItem o now st p
    pr.1 :: runCycleGo o now pr.2 rest

/-- One full check cycle over a tracked-item list, starting from an
empty fetch cache and an empty notification-dedup set. -/
def runCycle (o : Oracle) (now : Nat) (ps : List Product) : List StepResult :=
  runCycleGo o now { cache := [], notified := [] } ps

/-- `checkAllProducts`: the updated item list persisted at the end of a
cycle (`background.js` line 200). -/
def checkAllProducts (o : Oracle) (now : Nat) (ps : List Product) : List Product :=
  (runCycle o now ps).map (·.updated)

/-- All change events notified during one cycle, in emission order.
`sendNotification` returns non-null for every variant of the closed
`ChangeEvent` union, so each event yields exactly one notification. -/
def cycleEvents (o : Oracle) (now : Nat) (ps : List Product) : List ChangeEvent :=
  (runCycle o now ps).flatMap (·.events)

-- ── Badge (`updateBadge`) ─────────────────────────────────────────────

/-- Whether an item counts as a stock alert (`low_stock` or
`sold_out`). -/
def isStockAlert (p : Product) : Bool :=
  p.stockStatus == "low_stock" || p.stockStatus == "sold_out"

/-- The badge's `alertCount` (`background.js` lines 81-85): the number
of stock-alert items plus the number of on-sale items. -/
def alertCount (ps : List Product) : Nat :=
  (ps.filter isStockAlert).length + (ps.filter (fun p => p.onSale)).length

/-- The number of items needing attention under the specification's
description: items currently `low_stock`, `sold_out`, or `onSale`, each
counted once. -/
def attnQualifying (ps : List Product) : Nat :=
  (ps.filter (fun p => isStockAlert p || p.onSale)).length

-- ── Specification-side predicates ─────────────────────────────────────

/-- The closed three-value stock enum of the specification. -/
def validStock (s : String) : Prop :=
  s = "in_stock" ∨ s = "low_stock" ∨ s = "sold_out"

/-- Equality of the identity and settings fields of two items (the
fields a check cycle must not touch). -/
def sameIdentity (a b : Product) : Prop :=
  a.productId = b.productId ∧ a.color = b.color ∧ a.size = b.size ∧
  a.name = b.name ∧ a.productLine = b.productLine ∧ a.url = b.url ∧
  a.region = b.region ∧ a.image = b.image ∧
  a.trackNewColors = b.trackNewColors ∧ a.addedAt = b.addedAt

/-- The specification-side sale condition for the structured-catalog
strategy: the extraction located a SKU for the tracked color/size whose
truthy sale price lies strictly below its truthy list price. -/
def saleBelowList (html : Html) (url size : String) : Prop :=
  ∃ qd cc sku pr,
    html.nextData = some (some qd) ∧
    getColorCodeFromUrl url = some cc ∧ strTruthy cc = true ∧
    qd.skus.find? (skuMatches cc size) = some sku ∧
    sku.price = some pr ∧
    numTruthy pr.salePrice = true ∧ numTruthy (jsOrNull pr.listPrice) = true ∧
    pr.salePrice.getD 0 < (jsOrNull pr.listPrice).getD 0

-- ── Concrete scenario data (used by witnesses and counterexamples) ────

/-- A tracked item with new-color tracking enabled and an empty stored
color set. -/
def emptyColorsProduct : Product :=
  { productId := "P1", color := "Black", size := "M", name := "Shirt",
    productLine := "Metal Vent Tech", url := "https://shop.lululemon.com/p/cat/item/_/prod1?color=111",
    region := "US", image := "icon.png", currentPrice := some 78, originalPrice := none,
    onSale := false, stockStatus := "in_stock", availableColors := [],
    trackNewColors := true, markdownUrl := none, addedAt := 0, lastChecked := 0,
    lastChange := none }

/-- A snapshot carrying one color and otherwise agreeing with
`emptyColorsProduct`. -/
def oneColorSnapshot : Snapshot :=
  { currentPrice := some 78, originalPrice := none, onSale := false,
    stockStatus := "in_stock", availableColors := [⟨"123", "Red"⟩] }

/-- An item that is both sold out and on sale. -/
def soldOutOnSaleProduct : Product :=
  { emptyColorsProduct with stockStatus := "sold_out", onSale := true }

/-- Markdown scenario, tracked item: color code 111, size M, currently
in stock at 60, not a clearance URL. -/
def mdProduct : Product :=
  { productId := "P1", color := "Black", size := "M", name := "Shirt",
    productLine := "Metal Vent Tech", url := "https://shop.lululemon.com/p/cat/item/_/prod1?color=111",
    region := "US", image := "icon.png", currentPrice := some 60, originalPrice := none,
    onSale := false, stockStatus := "in_stock", availableColors := [⟨"111", "Black"⟩],
    trackNewColors := false, markdownUrl := none, addedAt := 0, lastChecked := 0,
    lastChange := none }

/-- Markdown scenario, normal page: the item is flagged sold out and
color 111 has vanished from the color list. -/
def normalPageHtml : Html :=
  { nextData := some (some
      { isSoldOut := true, colors := some [⟨"222", "Blue"⟩], skus := [],
        colorDriver := none, productId := none, unifiedId := none,
        parentCategoryUnifiedId := none }),
    ldGroups := [], hasLowStockText := false, hasSoldOutText := false,
    hasVisibleLowStockSFCC := false, fallbackPrice := none }

/-- Markdown scenario, the clearance payload's SKU for color 111 size M:
sale price 40, list price 60. -/
def mdSku : Sku :=
  { color := some "111", size := some "M", available := true,
    price := some { listPrice := some 60, salePrice := some 40 } }

/-- Markdown scenario, the clearance page's query payload: it carries
color 111 and the identifiers used for the synthesized URL. -/
def mdQueryData : QueryData :=
  { isSoldOut := false, colors := some [⟨"111", "Black"⟩], skus := [mdSku],
    colorDriver := none, productId := some "prod9", unifiedId := some "item-md",
    parentCategoryUnifiedId := some "cat" }

/-- Markdown scenario, the clearance page. -/
def mdPageHtml : Html :=
  { nextData := some (some mdQueryData),
    ldGroups := [], hasLowStockText := false, hasSoldOutText := false,
    hasVisibleLowStockSFCC := false, fallbackPrice := none }

/-- Markdown scenario, page-content provider: the normal page and the
derived clearance page resolve, everything else fails. -/
def mdOracle : Oracle := fun u =>
  if u = "https://shop.lululemon.com/p/cat/item/_/prod1?color=111" then some normalPageHtml
  else if u = "https://shop.lululemon.com/p/cat/item-MD/_/prod1?color=111" then some mdPageHtml
  else none

/-- Stable scenario, tracked item: stored state matches the live page
exactly. -/
def stableProduct : Product :=
  { productId := "P2", color := "Black", size := "M", name := "Shirt",
    productLine := "Metal Vent Tech", url := "https://shop.lululemon.com/p/cat/other/_/prod2?color=111",
    region := "US", image := "icon.png", currentPrice := some 78, originalPrice := none,
    onSale := false, stockStatus := "in_stock", availableColors := [⟨"111", "Black"⟩],
    trackNewColors := false, markdownUrl := none, addedAt := 0, lastChecked := 0,
    lastChange := none }

/-- Stable scenario, live page: in stock at list price 78, color 111
present. -/
def stablePageHtml : Html :=
  { nextData := some (some
      { isSoldOut := false, colors := some [⟨"111", "Black"⟩],
        skus := [{ color := some "111", size := some "M", available := true,
                   price := some { listPrice := some 78, salePrice := none } }],
        colorDriver := none, productId := none, unifiedId := none,
        parentCategoryUnifiedId := none }),
    ldGroups := [], hasLowStockText := false, hasSoldOutText := false,
    hasVisibleLowStockSFCC := false, fallbackPrice := none }

/-- Stable scenario, page-content provider. -/
def stableOracle : Oracle := fun u =>
  if u = "https://shop.lululemon.com/p/cat/other/_/prod2?color=111" then some stablePageHtml
  else none

/-- Dedup scenario, first sibling (color 111) of productId prod1; the
page carries colors 111 and 222 plus the newly added 333. -/
def dedupProductA : Product :=
  { productId := "prod1", color := "Black", size := "M", name := "Shirt",
    productLine := "Metal Vent Tech", url := "https://shop.lululemon.com/p/cat/item/_/prod1?color=111",
    region := "US", image := "icon.png", currentPrice := some 78, originalPrice := none,
    onSale := false, stockStatus := "in_stock",
    availableColors := [⟨"111", "Black"⟩, ⟨"222", "White"⟩],
    trackNewColors := true, markdownUrl := none, addedAt := 0, lastChecked := 0,
    lastChange := none }

/-- Dedup scenario, second sibling (color 222) of the same productId and
the same underlying page. -/
def dedupProductB : Product :=
  { dedupProductA with
    color := "White",
    url := "https://shop.lululemon.com/p/cat/item/_/prod1?color=222" }

/-- Dedup scenario, the shared page: one new color 333 appeared, the
tracked SKU is unchanged. -/
def dedupPageHtml : Html :=
  { nextData := some (some
      { isSoldOut := false,
        colors := some [⟨"111", "Black"⟩, ⟨"222", "White"⟩, ⟨"333", "Green"⟩],
        skus := [{ color := some "111", size := some "M", available := true,
                   price := some { listPrice := some 78, salePrice := none } }],
        colorDriver := none, productId := none, unifiedId := none,
        parentCategoryUnifiedId := none }),
    ldGroups := [], hasLowStockText := false, hasSoldOutText := false,
    hasVisibleLowStockSFCC := false, fallbackPrice := none }

/-- Dedup scenario, page-content provider: only the siblings' shared
page resolves (under the first sibling's full URL). -/
def dedupOracle : Oracle := fun u =>
  if u = "https://shop.lululemon.com/p/cat/item/_/prod1?color=111" then some dedupPageHtml
  else none

/-- Retry scenario, first sibling: its fetch will fail. -/
def retryProductA : Product :=
  { dedupProductA with
    productId := "prod5",
    trackNewColors := false,
    url := "https://shop.lululemon.com/p/cat/thing/_/prod5?color=111" }

/-- Retry scenario, second sibling of the same underlying page. -/
def retryProductB : Product :=
  { retryProductA with
    color := "White",
    url := "https://shop.lululemon.com/p/cat/thing/_/prod5?color=222" }

/-- Retry scenario, page-content provider: the fetch under the first
sibling's URL fails, the one under the second sibling's URL succeeds. -/
def retryOracle : Oracle := fun u =>
  if u = "https://shop.lululemon.com/p/cat/thing/_/prod5?color=222" then some dedupPageHtml
  else none

-- ══════════════════════════════════════════════════════════════════════
--  Theorems
-- ══════════════════════════════════════════════════════════════════════

-- ── Diff block characterizations ──────────────────────────────────────

theorem statusEvents_shape (old : Product) (nd : Snapshot) (e : ChangeEvent)
    (h : e ∈ statusEvents old nd) :
    e = ChangeEvent.status_change old.stockStatus nd.stockStatus := by
  unfold statusEvents at h
  split at h <;> simp_all

theorem priceEvents_shape (old : Product) (nd : Snapshot) (e : ChangeEvent)
    (h : e ∈ priceEvents old nd) : ∃ a b, e = ChangeEvent.price_change a b := by
  unfold priceEvents at h
  split at h
  · split at h
    · simp only [List.mem_singleton] at h
      exact ⟨_, _, h⟩
    · simp at h
  · simp at h

theorem saleEvents_shape (old : Product) (nd : Snapshot) (e : ChangeEvent)
    (h : e ∈ saleEvents old nd) : e = ChangeEvent.went_on_sale := by
  unfold saleEvents at h
  split at h <;> simp_all

theorem newColorEvents_shape (old : Product) (nd : Snapshot) (e : ChangeEvent)
    (h : e ∈ newColorEvents old nd) : ∃ c, e = ChangeEvent.new_color c := by
  unfold newColorEvents at h
  split at h
  · simp only [List.mem_map] at h
    obtain ⟨c, _, rfl⟩ := h
    exact ⟨_, rfl⟩
  · simp at h

theorem detect_no_markdown (old : Product) (nd : Snapshot) (e : ChangeEvent)
    (h : e ∈ detectChanges old nd) : isMovedToMarkdown e = false := by
  unfold detectChanges at h
  simp only [List.mem_append] at h
  rcases h with ((h | h) | h) | h
  · rw [statusEvents_shape old nd e h]; rfl
  · obtain ⟨a, b, rfl⟩ := priceEvents_shape old nd e h; rfl
  · rw [saleEvents_shape old nd e h]; rfl
  · obtain ⟨c, rfl⟩ := newColorEvents_shape old nd e h; rfl

theorem detect_status_mem (old : Product) (nd : Snapshot) (e : ChangeEvent)
    (h : e ∈ detectChanges old nd) (hs : isStatusChange e = true) :
    e = ChangeEvent.status_change old.stockStatus nd.stockStatus := by
  unfold detectChanges at h
  simp only [List.mem_append] at h
  rcases h with ((h | h) | h) | h
  · exact statusEvents_shape old nd e h
  · obtain ⟨a, b, rfl⟩ := priceEvents_shape old nd e h; simp [isStatusChange] at hs
  · rw [saleEvents_shape old nd e h] at hs; simp [isStatusChange] at hs
  · obtain ⟨c, rfl⟩ := newColorEvents_shape old nd e h; simp [isStatusChange] at hs

/-- The new-color part of a diff, in closed form. -/
theorem detect_filter_newColor (old : Product) (nd : Snapshot) :
    (detectChanges old nd).filter isNewColor = newColorEvents old nd := by
  unfold detectChanges
  simp only [List.filter_append]
  have h1 : (statusEvents old nd).filter isNewColor = [] := by
    rw [List.filter_eq_nil_iff]
    intro a ha
    rw [statusEvents_shape old nd a ha]
    simp [isNewColor]
  have h2 : (priceEvents old nd).filter isNewColor = [] := by
    rw [List.filter_eq_nil_iff]
    intro a ha
    obtain ⟨x, y, rfl⟩ := priceEvents_shape old nd a ha
    simp [isNewColor]
  have h3 : (saleEvents old nd).filter isNewColor = [] := by
    rw [List.filter_eq_nil_iff]
    intro a ha
    rw [saleEvents_shape old nd a ha]
    simp [isNewColor]
  have h4 : (newColorEvents old nd).filter isNewColor = newColorEvents old nd := by
    rw [List.filter_eq_self]
    intro a ha
    obtain ⟨c, rfl⟩ := newColorEvents_shape old nd a ha
    rfl
  rw [h1, h2, h3, h4]
  rfl

/-- Claim C3 is false as stated: for a previous item with
`trackNewColors` enabled whose stored color set is empty and a fresh
snapshot with one color, the diff produces one `new_color` event — the
code only gates on `trackNewColors` (the JavaScript truthiness check on
the two arrays is satisfied by empty arrays), so an empty old color set
does not suppress new-color events. -/
theorem claim3_counterexample :
    emptyColorsProduct.trackNewColors = true ∧
    emptyColorsProduct.availableColors = [] ∧
    detectChanges emptyColorsProduct oneColorSnapshot = [ChangeEvent.new_color "Red"] := by
  exact ⟨rfl, rfl, rfl⟩

/-- Claim C3 as amended: `new_color` events are gated only on
`previous.trackNewColors`; when it is enabled the diff produces exactly
one event per fresh color whose code is absent from the old set (in
fresh order); an empty fresh color set yields zero events, but an empty
old color set does not suppress events — every fresh color then fires. -/
theorem claim3_amended :
    (∀ (p : Product) (nd : Snapshot), p.trackNewColors = false →
      (detectChanges p nd).filter isNewColor = []) ∧
    (∀ (p : Product) (nd : Snapshot), nd.availableColors = [] →
      (detectChanges p nd).filter isNewColor = []) ∧
    (∀ (p : Product) (nd : Snapshot), p.trackNewColors = true →
      (detectChanges p nd).filter isNewColor =
        (nd.availableColors.filter
            (fun c => ¬ (p.availableColors.map (·.code)).contains c.code)).map
          (fun c => ChangeEvent.new_color c.name)) ∧
    (∀ (p : Product) (nd : Snapshot), p.trackNewColors = true → p.availableColors = [] →
      (detectChanges p nd).filter isNewColor =
        nd.availableColors.map (fun c => ChangeEvent.new_color c.name)) := by
  refine ⟨?_, ?_, ?_, ?_⟩
  · intro p nd h
    rw [detect_filter_newColor]
    unfold newColorEvents
    simp [h]
  · intro p nd h
    rw [detect_filter_newColor]
    unfold newColorEvents
    simp [h]
  · intro p nd h
    rw [detect_filter_newColor]
    unfold newColorEvents
    simp [h]
  · intro p nd h h2
    rw [detect_filter_newColor]
    unfold newColorEvents
    simp [h, h2]

/-- Claim C3 amended, witnessed at a concrete input: with new-color
tracking enabled and stored colors `111`, a fresh set adding `222` fires
exactly the one event for the added color. -/
theorem claim3_amended_witness :
    (detectChanges
        { emptyColorsProduct with availableColors := [⟨"111", "Black"⟩] }
        { oneColorSnapshot with availableColors := [⟨"111", "Black"⟩, ⟨"222", "Blue"⟩] }).filter
          isNewColor = [ChangeEvent.new_color "Blue"] := by
  rw [claim3_amended.2.2.1 _ _ rfl]
  rfl

-- ── Claim C9: badge attention count ───────────────────────────────────

/-- Claim C9 is false as stated: an item that is both out of stock and
on sale contributes two to the published count (`updateBadge` adds the
stock-alert count and the on-sale count), while the claim says each
qualifying item contributes exactly one. -/
theorem claim9_counterexample :
    alertCount [soldOutOnSaleProduct] = 2 ∧ attnQualifying [soldOutOnSaleProduct] = 1 := by
  exact ⟨rfl, rfl⟩

/-- Claim C9 as amended: the published attention count equals the number
of items that are `low_stock`, `sold_out`, or `onSale` plus the number
of items that qualify on both grounds — an item that is both out of
stock and on sale contributes two, all other qualifying items contribute
one. -/
theorem claim9_amended (ps : List Product) :
    alertCount ps =
      attnQualifying ps + (ps.filter (fun p => isStockAlert p && p.onSale)).length := by
  induction ps with
  | nil => rfl
  | cons p rest ih =>
    unfold alertCount attnQualifying at *
    simp only [List.filter_cons]
    cases h1 : isStockAlert p <;> cases h2 : p.onSale <;>
      simp [h1, h2] <;> omega

-- ── Claim C10: frame conditions of a cycle ────────────────────────────

theorem stepItem_cacheHit (o : Oracle) (now : Nat) (st : StepState) (p : Product)
    (s : Snapshot) (hl : st.cache.lookup (baseUrlOf p.url) = some s) :
    stepItem o now st p = processSnap o now st p s st.cache none := by
  unfold stepItem
  simp [hl]

theorem stepItem_fetchSome (o : Oracle) (now : Nat) (st : StepState) (p : Product)
    (nd : Snapshot) (hl : st.cache.lookup (baseUrlOf p.url) = none)
    (hf : fetchProductStatus o p = some nd) :
    stepItem o now st p =
      processSnap o now st p nd ((baseUrlOf p.url, nd) :: st.cache) (some p.url) := by
  unfold stepItem
  simp [hl, hf]

theorem stepItem_fetchNone (o : Oracle) (now : Nat) (st : StepState) (p : Product)
    (hl : st.cache.lookup (baseUrlOf p.url) = none)
    (hf : fetchProductStatus o p = none) :
    stepItem o now st p =
      ({ product := p, updated := p, snap := none, events := [],
         md := none, issuedFetch := some p.url },
       { cache := st.cache, notified := st.notified }) := by
  unfold stepItem
  simp [hl, hf]

theorem processSnap_identity (o : Oracle) (now : Nat) (st : StepState) (p : Product)
    (nd : Snapshot) (cache1 : List (String × Snapshot)) (issued : Option String) :
    sameIdentity p (processSnap o now st p nd cache1 issued).1.updated :=
  ⟨rfl, rfl, rfl, rfl, rfl, rfl, rfl, rfl, rfl, rfl⟩

theorem stepItem_identity (o : Oracle) (now : Nat) (st : StepState) (p : Product) :
    sameIdentity p (stepItem o now st p).1.updated := by
  cases hl : st.cache.lookup (baseUrlOf p.url) with
  | some s =>
    rw [stepItem_cacheHit o now st p s hl]
    exact processSnap_identity ..
  | none =>
    cases hf : fetchProductStatus o p with
    | some nd =>
      rw [stepItem_fetchSome o now st p nd hl hf]
      exact processSnap_identity ..
    | none =>
      rw [stepItem_fetchNone o now st p hl hf]
      exact ⟨rfl, rfl, rfl, rfl, rfl, rfl, rfl, rfl, rfl, rfl⟩

theorem stepItem_product (o : Oracle) (now : Nat) (st : StepState) (p : Product) :
    (stepItem o now st p).1.product = p := by
  cases hl : st.cache.lookup (baseUrlOf p.url) with
  | some s => rw [stepItem_cacheHit o now st p s hl]; rfl
  | none =>
    cases hf : fetchProductStatus o p with
    | some nd => rw [stepItem_fetchSome o now st p nd hl hf]; rfl
    | none => rw [stepItem_fetchNone o now st p hl hf]

theorem runCycleGo_products (o : Oracle) (now : Nat) :
    ∀ (st : StepState) (ps : List Product), (runCycleGo o now st ps).map (·.product) = ps
  | _, [] => rfl
  | st, p :: rest => by
    simp only [runCycleGo, List.map_cons]
    rw [stepItem_product, runCycleGo_products o now _ rest]

theorem runCycleGo_identity (o : Oracle) (now : Nat) :
    ∀ (st : StepState) (ps : List Product),
      List.Forall₂ sameIdentity ps ((runCycleGo o now st ps).map (·.updated))
  | _, [] => List.Forall₂.nil
  | st, p :: rest => by
    simp only [runCycleGo, List.map_cons]
    exact List.Forall₂.cons (stepItem_identity o now st p) (runCycleGo_identity o now _ rest)

-- ── Claim C6: the sale invariant ──────────────────────────────────────

theorem applySoldOutFlag_onSale (qd : QueryData) (r : Snapshot) :
    (applySoldOutFlag qd r).onSale = r.onSale := by
  unfold applySoldOutFlag
  split <;> rfl

theorem applyColors_onSale (qd : QueryData) (r : Snapshot) :
    (applyColors qd r).onSale = r.onSale := by
  unfold applyColors
  split <;> rfl

theorem applySkuStock_onSale (sku : Sku) (r : Snapshot) :
    (applySkuStock sku r).onSale = r.onSale := by
  unfold applySkuStock
  split <;> rfl

theorem applyColorDriver_onSale (qd : QueryData) (cc size : String) (r : Snapshot) :
    (applyColorDriver qd cc size r).onSale = r.onSale := by
  unfold applyColorDriver
  repeat' split
  all_goals rfl

theorem applyFirstSkuPrice_onSale (qd : QueryData) (r : Snapshot) :
    (applyFirstSkuPrice qd r).onSale = r.onSale := by
  unfold applyFirstSkuPrice
  repeat' split
  all_goals rfl

theorem stage2Price_onSale (v0 : LdVariant) (r : Snapshot) :
    (stage2Price v0 r).onSale = r.onSale := by
  unfold stage2Price
  repeat' split
  all_goals rfl

theorem stage2SizeStock_onSale (cv : List LdVariant) (sz : String) (r : Snapshot) :
    (stage2SizeStock cv sz r).onSale = r.onSale := by
  unfold stage2SizeStock
  repeat' split
  all_goals rfl

theorem stage2AllOut_onSale (cv : List LdVariant) (r : Snapshot) :
    (stage2AllOut cv r).onSale = r.onSale := by
  unfold stage2AllOut
  split <;> rfl

theorem stage2_onSale (g : LdGroup) (cn sz : String) (r0 : Snapshot) :
    (stage2 g cn sz r0).onSale = r0.onSale := by
  unfold stage2 stage2Match
  split
  · rfl
  · rw [stage2AllOut_onSale, stage2SizeStock_onSale, stage2Price_onSale]

theorem usLowStockText_onSale (html : Html) (r : Snapshot) :
    (usLowStockText html r).onSale = r.onSale := by
  unfold usLowStockText
  repeat' split
  all_goals rfl

theorem usSoldOutText_onSale (html : Html) (r : Snapshot) :
    (usSoldOutText html r).onSale = r.onSale := by
  unfold usSoldOutText
  repeat' split
  all_goals rfl

theorem stockFallback_onSale (html : Html) (u : String) (r : Snapshot) :
    (stockFallback html u r).onSale = r.onSale := by
  unfold stockFallback
  split
  · rw [usSoldOutText_onSale, usLowStockText_onSale]
  · split <;> rfl

theorem priceFallback_onSale (html : Html) (r : Snapshot) :
    (priceFallback html r).onSale = r.onSale := by
  unfold priceFallback
  repeat' split
  all_goals rfl

theorem applySkuPrice_onSale (sku : Sku) (r : Snapshot) :
    ((applySkuPrice sku r).onSale = true ↔
      (r.onSale = true ∨ ∃ pr, sku.price = some pr ∧
        numTruthy pr.salePrice = true ∧ numTruthy (jsOrNull pr.listPrice) = true ∧
        pr.salePrice.getD 0 < (jsOrNull pr.listPrice).getD 0)) := by
  unfold applySkuPrice
  cases hp : sku.price with
  | none => simp
  | some pr =>
    dsimp only
    split
    · rename_i hcond
      constructor
      · intro _
        exact Or.inr ⟨pr, rfl, hcond.1, hcond.2.1, hcond.2.2⟩
      · intro _
        rfl
    · rename_i hcond
      constructor
      · exact Or.inl
      · rintro (h | ⟨pr', hpr', h1, h2, h3⟩)
        · exact h
        · cases hpr'
          exact absurd ⟨h1, h2, h3⟩ hcond

theorem stage1Sku_onSale (qd : QueryData) (u sz : String) (r : Snapshot)
    (hr : r.onSale = false) :
    ((stage1Sku qd u sz r).onSale = true ↔
      ∃ cc sku pr,
        getColorCodeFromUrl u = some cc ∧ strTruthy cc = true ∧
        qd.skus.find? (skuMatches cc sz) = some sku ∧ sku.price = some pr ∧
        numTruthy pr.salePrice = true ∧ numTruthy (jsOrNull pr.listPrice) = true ∧
        pr.salePrice.getD 0 < (jsOrNull pr.listPrice).getD 0) := by
  unfold stage1Sku
  cases hg : getColorCodeFromUrl u with
  | none => simp [hr]
  | some cc =>
    dsimp only
    by_cases ht : strTruthy cc = true
    · rw [if_pos ht]
      cases hf : qd.skus.find? (skuMatches cc sz) with
      | none =>
        rw [applyColorDriver_onSale, hr]
        constructor
        · intro h
          exact absurd h (by simp)
        · rintro ⟨cc', sku, pr, hcc', ht', hfind, hrest⟩
          cases hcc'
          rw [hf] at hfind
          cases hfind
      | some sku =>
        rw [applySkuStock_onSale, applySkuPrice_onSale]
        constructor
        · rintro (h | ⟨pr, hpr, h1, h2, h3⟩)
          · rw [hr] at h
            exact absurd h (by simp)
          · exact ⟨cc, sku, pr, rfl, ht, hf, hpr, h1, h2, h3⟩
        · rintro ⟨cc', sku', pr, hcc', ht', hfind, hpr, h1, h2, h3⟩
          cases hcc'
          rw [hf] at hfind
          cases hfind
          exact Or.inr ⟨pr, hpr, h1, h2, h3⟩
    · rw [if_neg ht]
      rw [hr]
      constructor
      · intro h
        exact absurd h (by simp)
      · rintro ⟨cc', sku, pr, hcc', ht', hrest⟩
        cases hcc'
        exact absurd ht' ht

theorem stage1_onSale (qd : QueryData) (u sz : String) (r0 : Snapshot)
    (hr : r0.onSale = false) :
    ((stage1 qd u sz r0).onSale = true ↔
      ∃ cc sku pr,
        getColorCodeFromUrl u = some cc ∧ strTruthy cc = true ∧
        qd.skus.find? (skuMatches cc sz) = some sku ∧ sku.price = some pr ∧
        numTruthy pr.salePrice = true ∧ numTruthy (jsOrNull pr.listPrice) = true ∧
        pr.salePrice.getD 0 < (jsOrNull pr.listPrice).getD 0) := by
  unfold stage1
  rw [applyFirstSkuPrice_onSale]
  apply stage1Sku_onSale
  rw [applyColors_onSale, applySoldOutFlag_onSale]
  exact hr

/-- The extractor reports a sale exactly when the structured-catalog
strategy located a SKU whose truthy sale price lies strictly below its
truthy list price. -/
theorem parseCore_onSale (html : Html) (u sz cn : String) :
    ((parseCore html u sz cn).onSale = true ↔ saleBelowList html u sz) := by
  unfold parseCore
  rw [priceFallback_onSale, stockFallback_onSale]
  have hstage2 : ∀ r : Snapshot,
      (if isIntlUrl u || html.nextData.isNone then
        (match html.ldGroups.head? with
          | some g => stage2 g cn sz r
          | none => r)
      else r).onSale = r.onSale := by
    intro r
    split
    · split
      · rw [stage2_onSale]
      · rfl
    · rfl
  rw [hstage2]
  cases hnd : html.nextData with
  | none =>
    unfold saleBelowList
    rw [hnd]
    simp [emptySnapshot]
  | some ond =>
    cases ond with
    | none =>
      unfold saleBelowList
      rw [hnd]
      simp [emptySnapshot]
    | some qd =>
      rw [stage1_onSale qd u sz emptySnapshot rfl]
      unfold saleBelowList
      rw [hnd]
      constructor
      · rintro ⟨cc, sku, pr, hrest⟩
        exact ⟨qd, cc, sku, pr, rfl, hrest⟩
      · rintro ⟨qd', cc, sku, pr, hqd, hrest⟩
        cases hqd
        exact ⟨cc, sku, pr, hrest⟩

theorem runCycleGo_onSale (o : Oracle) (now : Nat) :
    ∀ (ps : List Product) (st : StepState) (r : StepResult),
      r ∈ runCycleGo o now st ps → ∀ nd : Snapshot, r.snap = some nd →
        r.updated.onSale = nd.onSale
  | [], st, r, hr => by simp [runCycleGo] at hr
  | p :: rest, st, r, hr => by
    simp only [runCycleGo, List.mem_cons] at hr
    intro nd hsnap
    cases hl : st.cache.lookup (baseUrlOf p.url) with
    | some s =>
      rw [stepItem_cacheHit o now st p s hl] at hr
      rcases hr with rfl | hr
      · cases hsnap; rfl
      · exact runCycleGo_onSale o now rest _ r hr nd hsnap
    | none =>
      cases hf : fetchProductStatus o p with
      | some nds =>
        rw [stepItem_fetchSome o now st p nds hl hf] at hr
        rcases hr with rfl | hr
        · cases hsnap; rfl
        · exact runCycleGo_onSale o now rest _ r hr nd hsnap
      | none =>
        rw [stepItem_fetchNone o now st p hl hf] at hr
        rcases hr with rfl | hr
        · cases hsnap
        · exact runCycleGo_onSale o now rest _ r hr nd hsnap

/-- Claim C6: the extractor's `onSale` is true iff it found a sale price
strictly below the list price (both truthy), and every merge performed
by a check cycle copies the snapshot's `onSale` into the stored item —
so a sale price equal to or above the list price never sets `onSale`. -/
theorem claim6_sale_invariant :
    (∀ (html : Html) (p : Product),
      ((parseProductHtml html p).onSale = true ↔ saleBelowList html p.url p.size)) ∧
    (∀ (o : Oracle) (now : Nat) (ps : List Product) (r : StepResult) (nd : Snapshot),
      r ∈ runCycle o now ps → r.snap = some nd → r.updated.onSale = nd.onSale) := by
  constructor
  · intro html p
    exact parseCore_onSale html p.url p.size p.color
  · intro o now ps r nd hr hsnap
    exact runCycleGo_onSale o now ps { cache := [], notified := [] } r hr nd hsnap

/-- Claim C6, witnessed at a concrete input: in the stable scenario the
merged item's `onSale` equals the extraction's `onSale`. -/
theorem claim6_witness :
    (stepItem stableOracle 0 ⟨[], []⟩ stableProduct).1.updated.onSale =
      (parseProductHtml stablePageHtml stableProduct).onSale :=
  claim6_sale_invariant.2 stableOracle 0 [stableProduct]
    (stepItem stableOracle 0 ⟨[], []⟩ stableProduct).1
    (parseProductHtml stablePageHtml stableProduct)
    (List.mem_cons_self _ _) rfl

-- ── Claim C7: failure isolation ───────────────────────────────────────

theorem runCycleGo_failKeep (o : Oracle) (now : Nat) :
    ∀ (ps : List Product) (st : StepState) (r : StepResult),
      r ∈ runCycleGo o now st ps → o r.product.url = none →
        r.issuedFetch.isSome = true → r.updated = r.product ∧ r.events = []
  | [], st, r, hr => by simp [runCycleGo] at hr
  | p :: rest, st, r, hr => by
    simp only [runCycleGo, List.mem_cons] at hr
    intro ho hissued
    cases hl : st.cache.lookup (baseUrlOf p.url) with
    | some s =>
      rw [stepItem_cacheHit o now st p s hl] at hr
      rcases hr with rfl | hr
      · cases hissued
      · exact runCycleGo_failKeep o now rest _ r hr ho hissued
    | none =>
      cases hf : fetchProductStatus o p with
      | some nds =>
        rw [stepItem_fetchSome o now st p nds hl hf] at hr
        rcases hr with rfl | hr
        · unfold fetchProductStatus at hf
          rw [show (processSnap o now st p nds ((baseUrlOf p.url, nds) :: st.cache)
                (some p.url)).1.product = p from rfl] at ho
          rw [ho] at hf
          cases hf
        · exact runCycleGo_failKeep o now rest _ r hr ho hissued
      | none =>
        rw [stepItem_fetchNone o now st p hl hf] at hr
        rcases hr with rfl | hr
        · exact ⟨rfl, rfl⟩
        · exact runCycleGo_failKeep o now rest _ r hr ho hissued

/-- Claim C7: every tracked item is processed (one output record per
input item, in order — `checkAll` is a total function of the item list
and page oracle, so no error propagates out of it), and an item whose
own page fetch was issued and failed (HTTP error or network failure) is
retained unchanged, with no events emitted for it. -/
theorem claim7_failure_isolation :
    (∀ (o : Oracle) (now : Nat) (ps : List Product),
      (runCycle o now ps).map (·.product) = ps) ∧
    (∀ (o : Oracle) (now : Nat) (ps : List Product) (r : StepResult),
      r ∈ runCycle o now ps → o r.product.url = none → r.issuedFetch.isSome = true →
        r.updated = r.product ∧ r.events = []) := by
  constructor
  · intro o now ps
    exact runCycleGo_products o now { cache := [], notified := [] } ps
  · intro o now ps r hr ho hissued
    exact runCycleGo_failKeep o now ps { cache := [], notified := [] } r hr ho hissued

/-- Claim C7, witnessed at a concrete input: in the retry scenario the
first sibling's fetch fails and the item is retained unchanged with no
events. -/
theorem claim7_witness :
    (runCycle retryOracle 0 [retryProductA]).map (·.product) = [retryProductA] ∧
    ((stepItem retryOracle 0 ⟨[], []⟩ retryProductA).1.updated =
        (stepItem retryOracle 0 ⟨[], []⟩ retryProductA).1.product ∧
      (stepItem retryOracle 0 ⟨[], []⟩ retryProductA).1.events = []) :=
  ⟨claim7_failure_isolation.1 retryOracle 0 [retryProductA],
    claim7_failure_isolation.2 retryOracle 0 [retryProductA]
      (stepItem retryOracle 0 ⟨[], []⟩ retryProductA).1
      (List.mem_cons_self _ _) rfl rfl⟩

-- ── Claim C8: the stock-status enum invariant ─────────────────────────

theorem applySoldOutFlag_stock (qd : QueryData) (r : Snapshot) :
    (applySoldOutFlag qd r).stockStatus = r.stockStatus ∨
      (applySoldOutFlag qd r).stockStatus = "sold_out" := by
  unfold applySoldOutFlag
  split
  · exact Or.inr rfl
  · exact Or.inl rfl

theorem applyColors_stock (qd : QueryData) (r : Snapshot) :
    (applyColors qd r).stockStatus = r.stockStatus := by
  unfold applyColors
  split <;> rfl

theorem applySkuPrice_stock (sku : Sku) (r : Snapshot) :
    (applySkuPrice sku r).stockStatus = r.stockStatus := by
  unfold applySkuPrice
  split
  · rfl
  · dsimp only
    split <;> rfl

theorem applySkuStock_stock (sku : Sku) (r : Snapshot) :
    (applySkuStock sku r).stockStatus = r.stockStatus ∨
      (applySkuStock sku r).stockStatus = "sold_out" := by
  unfold applySkuStock
  split
  · exact Or.inr rfl
  · exact Or.inl rfl

theorem applyColorDriver_stock (qd : QueryData) (cc size : String) (r : Snapshot) :
    (applyColorDriver qd cc size r).stockStatus = r.stockStatus ∨
      (applyColorDriver qd cc size r).stockStatus = "sold_out" := by
  unfold applyColorDriver
  repeat' split
  all_goals first | exact Or.inr rfl | exact Or.inl rfl

theorem applyFirstSkuPrice_stock (qd : QueryData) (r : Snapshot) :
    (applyFirstSkuPrice qd r).stockStatus = r.stockStatus := by
  unfold applyFirstSkuPrice
  repeat' split
  all_goals rfl

theorem stage1Sku_stock (qd : QueryData) (u sz : String) (r : Snapshot)
    (h : validStock r.stockStatus) : validStock (stage1Sku qd u sz r).stockStatus := by
  unfold stage1Sku
  split
  · split
    · split
      · rcases applySkuStock_stock _ (applySkuPrice _ r) with he | he <;> rw [he]
        · rw [applySkuPrice_stock]; exact h
        · exact Or.inr (Or.inr rfl)
      · rcases applyColorDriver_stock qd _ sz r with he | he <;> rw [he]
        · exact h
        · exact Or.inr (Or.inr rfl)
    · exact h
  · exact h

theorem stage1_stock (qd : QueryData) (u sz : String) (r0 : Snapshot)
    (h : validStock r0.stockStatus) : validStock (stage1 qd u sz r0).stockStatus := by
  unfold stage1
  rw [applyFirstSkuPrice_stock]
  apply stage1Sku_stock
  rw [applyColors_stock]
  rcases applySoldOutFlag_stock qd r0 with he | he <;> rw [he]
  · exact h
  · exact Or.inr (Or.inr rfl)

theorem stage2Price_stock (v0 : LdVariant) (r : Snapshot) :
    (stage2Price v0 r).stockStatus = r.stockStatus := by
  unfold stage2Price
  repeat' split
  all_goals rfl

theorem stage2SizeStock_stock (cv : List LdVariant) (sz : String) (r : Snapshot) :
    (stage2SizeStock cv sz r).stockStatus = r.stockStatus ∨
      (stage2SizeStock cv sz r).stockStatus = "sold_out" := by
  unfold stage2SizeStock
  repeat' split
  all_goals first | exact Or.inr rfl | exact Or.inl rfl

theorem stage2AllOut_stock (cv : List LdVariant) (r : Snapshot) :
    (stage2AllOut cv r).stockStatus = r.stockStatus ∨
      (stage2AllOut cv r).stockStatus = "sold_out" := by
  unfold stage2AllOut
  split
  · exact Or.inr rfl
  · exact Or.inl rfl

theorem stage2Match_stock (cv : List LdVariant) (sz : String) (r : Snapshot)
    (h : validStock r.stockStatus) : validStock (stage2Match cv sz r).stockStatus := by
  unfold stage2Match
  split
  · exact h
  · rcases stage2AllOut_stock _ (stage2SizeStock _ sz (stage2Price _ _)) with he | he <;> rw [he]
    · rcases stage2SizeStock_stock _ sz (stage2Price _ _) with he2 | he2 <;> rw [he2]
      · rw [stage2Price_stock]; exact h
      · exact Or.inr (Or.inr rfl)
    · exact Or.inr (Or.inr rfl)

theorem stage2_stock (g : LdGroup) (cn sz : String) (r0 : Snapshot)
    (h : validStock r0.stockStatus) : validStock (stage2 g cn sz r0).stockStatus := by
  unfold stage2
  exact stage2Match_stock _ _ _ h

theorem usLowStockText_stock (html : Html) (r : Snapshot)
    (h : validStock r.stockStatus) : validStock (usLowStockText html r).stockStatus := by
  unfold usLowStockText
  repeat' split
  all_goals simp_all [validStock]

theorem usSoldOutText_stock (html : Html) (r : Snapshot)
    (h : validStock r.stockStatus) : validStock (usSoldOutText html r).stockStatus := by
  unfold usSoldOutText
  repeat' split
  all_goals simp_all [validStock]

theorem stockFallback_stock (html : Html) (u : String) (r : Snapshot)
    (h : validStock r.stockStatus) : validStock (stockFallback html u r).stockStatus := by
  unfold stockFallback
  split
  · exact usSoldOutText_stock html _ (usLowStockText_stock html r h)
  · split
    · exact Or.inr (Or.inl rfl)
    · exact h

theorem priceFallback_stock (html : Html) (r : Snapshot) :
    (priceFallback html r).stockStatus = r.stockStatus := by
  unfold priceFallback
  repeat' split
  all_goals rfl

theorem parseCore_stock (html : Html) (u sz cn : String) :
    validStock (parseCore html u sz cn).stockStatus := by
  unfold parseCore
  rw [priceFallback_stock]
  apply stockFallback_stock
  have hempty : validStock emptySnapshot.stockStatus := Or.inl rfl
  have h1 : validStock (match html.nextData with
      | some (some qd) => stage1 qd u sz emptySnapshot
      | _ => emptySnapshot).stockStatus := by
    split
    · exact stage1_stock _ _ _ _ hempty
    · exact hempty
  split
  · split
    · exact stage2_stock _ _ _ _ h1
    · exact h1
  · exact h1

theorem mergeSnapshot_stock (now : Nat) (p : Product) (nd : Snapshot)
    (md : Option MarkdownTransition) (ch : List ChangeEvent)
    (h : validStock nd.stockStatus) :
    validStock (mergeSnapshot now p nd md ch).stockStatus := by
  have he : (mergeSnapshot now p nd md ch).stockStatus =
      if md.isSome then "in_stock" else nd.stockStatus := rfl
  rw [he]
  split
  · exact Or.inl rfl
  · exact h

theorem lookup_valid {c : List (String × Snapshot)}
    (hc : ∀ e ∈ c, validStock e.2.stockStatus)
    {k : String} {s : Snapshot} (h : c.lookup k = some s) : validStock s.stockStatus := by
  induction c with
  | nil => simp [List.lookup] at h
  | cons e rest ih =>
    obtain ⟨k', v⟩ := e
    simp only [List.lookup] at h
    split at h
    · cases h
      exact hc (k', s) (List.mem_cons_self _ _)
    · exact ih (fun e he => hc e (List.mem_cons_of_mem _ he)) h

theorem fetch_valid {o : Oracle} {p : Product} {nd : Snapshot}
    (hf : fetchProductStatus o p = some nd) : validStock nd.stockStatus := by
  unfold fetchProductStatus at hf
  cases ho : o p.url with
  | none => rw [ho] at hf; simp at hf
  | some html =>
    rw [ho] at hf
    simp only [Option.map_some'] at hf
    cases hf
    exact parseCore_stock ..

theorem processSnap_state_cache (o : Oracle) (now : Nat) (st : StepState) (p : Product)
    (nd : Snapshot) (c : List (String × Snapshot)) (i : Option String) :
    (processSnap o now st p nd c i).2.cache = c := rfl

theorem runCycleGo_stock (o : Oracle) (now : Nat) :
    ∀ (ps : List Product) (st : StepState),
      (∀ e ∈ st.cache, validStock e.2.stockStatus) →
      ∀ r ∈ runCycleGo o now st ps,
        validStock r.updated.stockStatus ∨ r.updated = r.product
  | [], st, _, r, hr => by simp [runCycleGo] at hr
  | p :: rest, st, hc, r, hr => by
    simp only [runCycleGo, List.mem_cons] at hr
    cases hl : st.cache.lookup (baseUrlOf p.url) with
    | some s =>
      rw [stepItem_cacheHit o now st p s hl] at hr
      rcases hr with rfl | hr
      · exact Or.inl (mergeSnapshot_stock _ _ _ _ _ (lookup_valid hc hl))
      · refine runCycleGo_stock o now rest (processSnap o now st p s st.cache none).2 ?_ r hr
        rw [processSnap_state_cache]
        exact hc
    | none =>
      cases hf : fetchProductStatus o p with
      | some nd =>
        rw [stepItem_fetchSome o now st p nd hl hf] at hr
        rcases hr with rfl | hr
        · exact Or.inl (mergeSnapshot_stock _ _ _ _ _ (fetch_valid hf))
        · refine runCycleGo_stock o now rest
            (processSnap o now st p nd ((baseUrlOf p.url, nd) :: st.cache) (some p.url)).2 ?_ r hr
          rw [processSnap_state_cache]
          intro e he
          rcases List.mem_cons.mp he with he1 | he1
          · rw [he1]; exact fetch_valid hf
          · exact hc e he1
      | none =>
        rw [stepItem_fetchNone o now st p hl hf] at hr
        rcases hr with rfl | hr
        · exact Or.inr rfl
        · exact runCycleGo_stock o now rest _ hc r hr

/-- Claim C8: the extractor only ever produces one of the three
enumerated stock statuses, and every merge performed by a check cycle
stores one of them (an item whose fetch failed is retained verbatim
rather than merged). -/
theorem claim8_stock_enum :
    (∀ (h : Html) (p : Product), validStock (parseProductHtml h p).stockStatus) ∧
    (∀ (o : Oracle) (now : Nat) (ps : List Product) (r : StepResult),
      r ∈ runCycle o now ps →
        validStock r.updated.stockStatus ∨ r.updated = r.product) := by
  constructor
  · intro h p
    exact parseCore_stock ..
  · intro o now ps r hr
    exact runCycleGo_stock o now ps { cache := [], notified := [] } (by simp) r hr

/-- Claim C8, witnessed at a concrete input: the stable scenario's
merged item carries a valid stock status. -/
theorem claim8_witness :
    validStock (stepItem stableOracle 0 ⟨[], []⟩ stableProduct).1.updated.stockStatus ∨
      (stepItem stableOracle 0 ⟨[], []⟩ stableProduct).1.updated =
        (stepItem stableOracle 0 ⟨[], []⟩ stableProduct).1.product :=
  claim8_stock_enum.2 stableOracle 0 [stableProduct] _ (List.mem_cons_self _ _)

-- ── Claim C5: fetch dedup ─────────────────────────────────────────────

theorem lookup_cons_none {e : String × Snapshot} {c : List (String × Snapshot)} {k : String}
    (h : (e :: c).lookup k = none) : c.lookup k = none ∧ k ≠ e.1 := by
  obtain ⟨k', v⟩ := e
  rw [List.lookup_cons] at h
  split at h
  · cases h
  · rename_i hbeq
    refine ⟨h, ?_⟩
    intro hk
    rw [hk] at hbeq
    simp at hbeq

theorem fetchProductStatus_none {o : Oracle} {p : Product} :
    fetchProductStatus o p = none ↔ o p.url = none := by
  unfold fetchProductStatus
  cases o p.url <;> simp

theorem filterMap_issued_cons_none {r : StepResult} {rs : List StepResult}
    (h : r.issuedFetch = none) :
    (r :: rs).filterMap (·.issuedFetch) = rs.filterMap (·.issuedFetch) := by
  simp [List.filterMap_cons, h]

theorem filterMap_issued_cons_some {r : StepResult} {rs : List StepResult} {u : String}
    (h : r.issuedFetch = some u) :
    (r :: rs).filterMap (·.issuedFetch) = u :: rs.filterMap (·.issuedFetch) := by
  simp [List.filterMap_cons, h]

/-- Every snapshot fetch issued during a cycle segment targets a page
key absent from the segment's starting cache. -/
theorem runCycleGo_fetch_fresh (o : Oracle) (now : Nat) :
    ∀ (ps : List Product) (st : StepState) (u : String),
      u ∈ (runCycleGo o now st ps).filterMap (·.issuedFetch) →
        st.cache.lookup (baseUrlOf u) = none
  | [], st, u, hu => by simp [runCycleGo] at hu
  | p :: rest, st, u, hu => by
    simp only [runCycleGo] at hu
    cases hl : st.cache.lookup (baseUrlOf p.url) with
    | some s =>
      rw [stepItem_cacheHit o now st p s hl] at hu
      rw [filterMap_issued_cons_none rfl] at hu
      exact runCycleGo_fetch_fresh o now rest (processSnap o now st p s st.cache none).2 u hu
    | none =>
      cases hf : fetchProductStatus o p with
      | some nd =>
        rw [stepItem_fetchSome o now st p nd hl hf] at hu
        rw [filterMap_issued_cons_some rfl] at hu
        rcases List.mem_cons.mp hu with rfl | hu
        · exact hl
        · have h2 := runCycleGo_fetch_fresh o now rest _ u hu
          rw [show (processSnap o now st p nd ((baseUrlOf p.url, nd) :: st.cache)
                (some p.url)).2.cache = (baseUrlOf p.url, nd) :: st.cache from rfl] at h2
          exact (lookup_cons_none h2).1
      | none =>
        rw [stepItem_fetchNone o now st p hl hf] at hu
        rw [filterMap_issued_cons_some rfl] at hu
        rcases List.mem_cons.mp hu with rfl | hu
        · exact hl
        · exact runCycleGo_fetch_fresh o now rest _ u hu

theorem runCycleGo_fetch_pairwise (o : Oracle) (now : Nat) :
    ∀ (ps : List Product) (st : StepState),
      List.Pairwise (fun u v => (o u).isSome = true → baseUrlOf u ≠ baseUrlOf v)
        ((runCycleGo o now st ps).filterMap (·.issuedFetch))
  | [], st => by simp [runCycleGo]
  | p :: rest, st => by
    simp only [runCycleGo]
    cases hl : st.cache.lookup (baseUrlOf p.url) with
    | some s =>
      rw [stepItem_cacheHit o now st p s hl]
      rw [filterMap_issued_cons_none rfl]
      exact runCycleGo_fetch_pairwise o now rest _
    | none =>
      cases hf : fetchProductStatus o p with
      | some nd =>
        rw [stepItem_fetchSome o now st p nd hl hf]
        rw [filterMap_issued_cons_some rfl]
        refine List.Pairwise.cons ?_ (runCycleGo_fetch_pairwise o now rest _)
        intro v hv _
        have h2 := runCycleGo_fetch_fresh o now rest _ v hv
        rw [show (processSnap o now st p nd ((baseUrlOf p.url, nd) :: st.cache)
              (some p.url)).2.cache = (baseUrlOf p.url, nd) :: st.cache from rfl] at h2
        exact fun he => (lookup_cons_none h2).2 he.symm
      | none =>
        rw [stepItem_fetchNone o now st p hl hf]
        rw [filterMap_issued_cons_some rfl]
        refine List.Pairwise.cons ?_ (runCycleGo_fetch_pairwise o now rest _)
        intro v _ hsome
        rw [fetchProductStatus_none.mp hf] at hsome
        cases hsome

/-- Claim C5 is false as stated: with two tracked items whose URLs
differ only by the color parameter (same page key), a failed first fetch
is not cached, so the second sibling re-issues a fetch — the cycle
issues two fetches whose URLs share the page key. -/
theorem claim5_counterexample :
    baseUrlOf retryProductA.url = baseUrlOf retryProductB.url ∧
    retryProductA.url ≠ retryProductB.url ∧
    (runCycle retryOracle 0 [retryProductA, retryProductB]).filterMap (·.issuedFetch) =
      [retryProductA.url, retryProductB.url] := by
  refine ⟨by decide, by decide, by decide⟩

/-- Claim C5 as amended: per cycle, at most one snapshot fetch of a page
key is ever issued after a successful one — a successful fetch caches
the snapshot under the page key and later siblings reuse it without
fetching; only a failed (uncached) fetch can be followed by another
fetch of the same page key. -/
theorem claim5_amended (o : Oracle) (now : Nat) (ps : List Product) :
    List.Pairwise (fun u v => (o u).isSome = true → baseUrlOf u ≠ baseUrlOf v)
      ((runCycle o now ps).filterMap (·.issuedFetch)) :=
  runCycleGo_fetch_pairwise o now ps { cache := [], notified := [] }

-- ── Claim C4: cross-item new-color notification dedup ─────────────────

theorem processSnap_events (o : Oracle) (now : Nat) (st : StepState) (p : Product)
    (nd : Snapshot) (c : List (String × Snapshot)) (i : Option String) :
    (processSnap o now st p nd c i).1.events =
      mdEvents (mdDecision o p nd (dedupFilter st.notified p.productId (detectChanges p nd))) ++
        soldOutFilter (mdDecision o p nd (dedupFilter st.notified p.productId (detectChanges p nd)))
          (dedupFilter st.notified p.productId (detectChanges p nd)) := rfl

theorem processSnap_state_notified (o : Oracle) (now : Nat) (st : StepState) (p : Product)
    (nd : Snapshot) (c : List (String × Snapshot)) (i : Option String) :
    (processSnap o now st p nd c i).2.notified =
      notifiedAfter st.notified p.productId
        (dedupFilter st.notified p.productId (detectChanges p nd)) := rfl

theorem mdEvents_newColor (md : Option MarkdownTransition) :
    (mdEvents md).countP isNewColor = 0 := by
  unfold mdEvents
  split <;> rfl

theorem soldOutFilter_newColor (md : Option MarkdownTransition) (l : List ChangeEvent) :
    (soldOutFilter md l).countP isNewColor = l.countP isNewColor := by
  unfold soldOutFilter
  split
  · rw [List.countP_filter]
    apply List.countP_congr
    intro c _
    cases c <;> simp [isNewColor, isStatusToSoldOut]
  · rfl

theorem dedupFilter_fresh {notified : List String} {pid : String} {changes0 : List ChangeEvent}
    (h : notified.contains pid = false) : dedupFilter notified pid changes0 = changes0 := by
  unfold dedupFilter
  rw [h, Bool.and_false]
  rfl

theorem dedupFilter_dup {notified : List String} {pid : String} {changes0 : List ChangeEvent}
    (h1 : strTruthy pid = true) (h2 : notified.contains pid = true) :
    dedupFilter notified pid changes0 = changes0.filter (fun c => !(isNewColor c)) := by
  unfold dedupFilter
  rw [h1, h2]
  rfl

theorem filter_not_newColor_count (l : List ChangeEvent) :
    (l.filter (fun c => !(isNewColor c))).countP isNewColor = 0 := by
  rw [List.countP_filter]
  simp

theorem notifiedAfter_pos {notified : List String} {pid : String} {changes1 : List ChangeEvent}
    (h1 : changes1.any isNewColor = true) (h2 : strTruthy pid = true) :
    notifiedAfter notified pid changes1 = pid :: notified := by
  unfold notifiedAfter
  simp [h1, h2]

theorem any_newColor_of_countP_one {l : List ChangeEvent}
    (h : l.countP isNewColor = 1) : l.any isNewColor = true := by
  rw [List.any_eq_true]
  exact List.countP_pos_iff.mp (by omega)

/-- Claim C4: in a cycle over two tracked items sharing a truthy
`productId` and the same underlying page (URLs with one page key, the
snapshot fetched once under the first sibling's URL), with new-color
tracking on and the diff of each sibling against the shared snapshot
containing exactly one `new_color` event, exactly one `new_color`
notification is emitted across the whole cycle — the second sibling's
duplicate is dropped. -/
theorem claim4_newcolor_dedup (o : Oracle) (now : Nat) (p1 p2 : Product) (h1 : Html)
    (hpid : p2.productId = p1.productId)
    (hpidT : strTruthy p1.productId = true)
    (ht1 : p1.trackNewColors = true) (ht2 : p2.trackNewColors = true)
    (hbase : baseUrlOf p2.url = baseUrlOf p1.url)
    (hf1 : o p1.url = some h1)
    (hc1 : (detectChanges p1 (parseProductHtml h1 p1)).countP isNewColor = 1)
    (hc2 : (detectChanges p2 (parseProductHtml h1 p1)).countP isNewColor = 1) :
    ((runCycle o now [p1, p2]).flatMap (·.events)).countP isNewColor = 1 := by
  have hl1 : (({ cache := [], notified := [] } : StepState)).cache.lookup (baseUrlOf p1.url) =
      none := rfl
  have hfs : fetchProductStatus o p1 = some (parseProductHtml h1 p1) := by
    unfold fetchProductStatus
    rw [hf1]
    rfl
  simp only [runCycle, runCycleGo]
  rw [stepItem_fetchSome o now { cache := [], notified := [] } p1 (parseProductHtml h1 p1) hl1 hfs]
  -- the second sibling hits the cache under the shared page key
  have hl2 : ((processSnap o now { cache := [], notified := [] } p1 (parseProductHtml h1 p1)
      ((baseUrlOf p1.url, parseProductHtml h1 p1) :: []) (some p1.url)).2).cache.lookup
        (baseUrlOf p2.url) = some (parseProductHtml h1 p1) := by
    rw [processSnap_state_cache, hbase, List.lookup_cons]
    simp
  rw [stepItem_cacheHit o now _ p2 (parseProductHtml h1 p1) hl2]
  simp only [List.flatMap_cons, List.flatMap_nil, List.append_nil, List.countP_append]
  rw [processSnap_events, processSnap_events]
  have hded1 : dedupFilter ({ cache := [], notified := [] } : StepState).notified p1.productId
      (detectChanges p1 (parseProductHtml h1 p1)) =
        detectChanges p1 (parseProductHtml h1 p1) :=
    dedupFilter_fresh rfl
  rw [hded1]
  have hnot : (processSnap o now { cache := [], notified := [] } p1 (parseProductHtml h1 p1)
      ((baseUrlOf p1.url, parseProductHtml h1 p1) :: []) (some p1.url)).2.notified =
        p1.productId :: [] := by
    rw [processSnap_state_notified, hded1]
    exact notifiedAfter_pos (any_newColor_of_countP_one hc1) hpidT
  have hded2 : dedupFilter (processSnap o now { cache := [], notified := [] } p1
      (parseProductHtml h1 p1) ((baseUrlOf p1.url, parseProductHtml h1 p1) :: [])
        (some p1.url)).2.notified p2.productId (detectChanges p2 (parseProductHtml h1 p1)) =
      (detectChanges p2 (parseProductHtml h1 p1)).filter (fun c => !(isNewColor c)) := by
    rw [hnot]
    refine dedupFilter_dup ?_ ?_
    · rw [hpid]; exact hpidT
    · rw [hpid]; simp [List.contains_cons]
  rw [hded2]
  rw [List.countP_append, List.countP_append]
  rw [mdEvents_newColor, mdEvents_newColor, soldOutFilter_newColor, soldOutFilter_newColor]
  rw [hc1, filter_not_newColor_count]

/-- Claim C4, witnessed at a concrete input: two sibling variants of one
product line on one page, one newly added color, one `new_color`
notification across the cycle. -/
theorem claim4_witness :
    ((runCycle dedupOracle 0 [dedupProductA, dedupProductB]).flatMap (·.events)).countP
      isNewColor = 1 :=
  claim4_newcolor_dedup dedupOracle 0 dedupProductA dedupProductB dedupPageHtml
    rfl (by decide) rfl rfl (by decide) (by decide) (by decide) (by decide)

-- ── Claim C1: markdown resolution ─────────────────────────────────────

theorem detect_any_soldout (p : Product) (nd : Snapshot)
    (h1 : p.stockStatus ≠ nd.stockStatus) (h2 : nd.stockStatus = "sold_out") :
    (detectChanges p nd).any isStatusToSoldOut = true := by
  unfold detectChanges statusEvents
  rw [if_pos h1]
  simp [isStatusToSoldOut, h2]

theorem mdEvents_status (md : Option MarkdownTransition) :
    (mdEvents md).countP isStatusChange = 0 := by
  unfold mdEvents
  split <;> rfl

theorem soldOutFilter_mem {md : Option MarkdownTransition} {l : List ChangeEvent}
    {a : ChangeEvent} (h : a ∈ soldOutFilter md l) : a ∈ l := by
  unfold soldOutFilter at h
  split at h
  · exact (List.mem_filter.mp h).1
  · exact h

theorem status_count_filtered (p : Product) (nd : Snapshot)
    (h2 : nd.stockStatus = "sold_out") :
    ((detectChanges p nd).filter (fun c => !(isStatusToSoldOut c))).countP isStatusChange = 0 := by
  rw [List.countP_filter, List.countP_eq_zero]
  intro a ha
  by_cases hs : isStatusChange a = true
  · rw [detect_status_mem p nd a ha hs]
    simp [isStatusChange, isStatusToSoldOut, h2]
  · simp only [Bool.not_eq_true] at hs
    simp [hs]

theorem processSnap_updated (o : Oracle) (now : Nat) (st : StepState) (p : Product)
    (nd : Snapshot) (c : List (String × Snapshot)) (i : Option String) :
    (processSnap o now st p nd c i).1.updated =
      mergeSnapshot now p nd
        (mdDecision o p nd (dedupFilter st.notified p.productId (detectChanges p nd)))
        (soldOutFilter (mdDecision o p nd (dedupFilter st.notified p.productId (detectChanges p nd)))
          (dedupFilter st.notified p.productId (detectChanges p nd))) := rfl

theorem mergeSnapshot_stockStatus (now : Nat) (p : Product) (nd : Snapshot)
    (md : Option MarkdownTransition) (ch : List ChangeEvent) :
    (mergeSnapshot now p nd md ch).stockStatus =
      if md.isSome then "in_stock" else nd.stockStatus := rfl

theorem mergeSnapshot_markdownUrl (now : Nat) (p : Product) (nd : Snapshot)
    (md : Option MarkdownTransition) (ch : List ChangeEvent) :
    (mergeSnapshot now p nd md ch).markdownUrl =
      (match md with | some t => some t.discountUrl | none => p.markdownUrl) := rfl

/-- When the tracked color has vanished from the normal page and the
clearance payload carries it with a matching SKU, the resolver returns
the synthesized URL and the SKU's sale/list prices. -/
theorem checkMarkdown_resolves (o : Oracle) (p : Product) (nd : Snapshot)
    (mdH : Html) (qd : QueryData) (sku : Sku) (c0 : Color) (C : String)
    (hcc : getColorCodeFromUrl p.url = some C)
    (hCne : C ≠ "")
    (habsent : nd.availableColors.any (fun c => c.code == C) = false)
    (hmdfetch : o (mdUrlOf p.url) = some mdH)
    (hmdnd : mdH.nextData = some (some qd))
    (hmdcolor : (qd.colors.getD []).find? (fun c => c.code == C) = some c0)
    (hmdsku : qd.skus.find? (skuMatches C p.size) = some sku)
    (hprice : sku.price = some { listPrice := some 60, salePrice := some 40 }) :
    checkMarkdownTransition o p nd =
      some { discountUrl := discountUrlOf qd C p.size,
             salePrice := some 40, listPrice := some 60 } := by
  unfold checkMarkdownTransition checkMarkdownCore
  rw [hcc]
  dsimp only
  have hstr : strTruthy C = true := by simp [strTruthy, hCne]
  rw [if_neg (by simp [hstr])]
  rw [if_neg (by simp [habsent])]
  rw [hmdfetch]
  try dsimp only
  rw [hmdnd]
  try dsimp only
  rw [hmdcolor]
  try dsimp only
  rw [hmdsku]
  dsimp only [Option.bind]
  rw [hprice]
  rfl

/-- Claim C1: for a tracked item whose previous state carries color C,
when the fresh normal-page snapshot lacks C and flips the status to
sold_out, and the clearance payload carries C with salePrice 40 and
listPrice 60, one cycle emits exactly one moved_to_markdown event with
payload (40, 60) and zero status_change events for that item, stores the
item's stockStatus as in_stock, and sets markdownUrl to the synthesized
clearance URL. -/
theorem claim1_markdown_resolution (o : Oracle) (now : Nat) (p : Product) (h mdH : Html)
    (qd : QueryData) (sku : Sku) (c0 : Color) (C : String)
    (hcc : getColorCodeFromUrl p.url = some C)
    (hCne : C ≠ "")
    (hprev : C ∈ p.availableColors.map (·.code))
    (hnomd : strContains p.url "-MD/" = false)
    (hnohtml : strContains p.url ".html" = false)
    (hfetch : o p.url = some h)
    (hstat : (parseProductHtml h p).stockStatus = "sold_out")
    (hflip : p.stockStatus ≠ "sold_out")
    (habsent : (parseProductHtml h p).availableColors.any (fun c => c.code == C) = false)
    (hmdfetch : o (mdUrlOf p.url) = some mdH)
    (hmdnd : mdH.nextData = some (some qd))
    (hmdcolor : (qd.colors.getD []).find? (fun c => c.code == C) = some c0)
    (hmdsku : qd.skus.find? (skuMatches C p.size) = some sku)
    (hprice : sku.price = some { listPrice := some 60, salePrice := some 40 }) :
    ((runCycle o now [p]).flatMap (·.events)).filter isMovedToMarkdown =
        [ChangeEvent.moved_to_markdown (some 40) (some 60)] ∧
    ((runCycle o now [p]).flatMap (·.events)).countP isStatusChange = 0 ∧
    (checkAllProducts o now [p]).map (·.stockStatus) = ["in_stock"] ∧
    (checkAllProducts o now [p]).map (·.markdownUrl) = [some (discountUrlOf qd C p.size)] := by
  have hfs : fetchProductStatus o p = some (parseProductHtml h p) := by
    unfold fetchProductStatus
    rw [hfetch]
    rfl
  have hne : p.stockStatus ≠ (parseProductHtml h p).stockStatus := by
    rw [hstat]
    exact hflip
  have hsold : (detectChanges p (parseProductHtml h p)).any isStatusToSoldOut = true :=
    detect_any_soldout p (parseProductHtml h p) hne hstat
  have hded : dedupFilter (({ cache := [], notified := [] } : StepState)).notified p.productId
      (detectChanges p (parseProductHtml h p)) = detectChanges p (parseProductHtml h p) :=
    dedupFilter_fresh rfl
  have hmdres : checkMarkdownTransition o p (parseProductHtml h p) =
      some { discountUrl := discountUrlOf qd C p.size,
             salePrice := some 40, listPrice := some 60 } :=
    checkMarkdown_resolves o p (parseProductHtml h p) mdH qd sku c0 C hcc hCne habsent
      hmdfetch hmdnd hmdcolor hmdsku hprice
  have hcond : (!(strContains p.url "-MD/") && !(strContains p.url ".html") &&
      ((detectChanges p (parseProductHtml h p)).any isStatusToSoldOut || p.trackNewColors)) =
        true := by
    rw [hnomd, hnohtml, hsold]
    rfl
  have hmd1 : mdDecision o p (parseProductHtml h p) (detectChanges p (parseProductHtml h p)) =
      some { discountUrl := discountUrlOf qd C p.size,
             salePrice := some 40, listPrice := some 60 } := by
    unfold mdDecision
    rw [hcond, if_pos rfl]
    exact hmdres
  simp only [runCycle, runCycleGo]
  rw [stepItem_fetchSome o now { cache := [], notified := [] } p (parseProductHtml h p) rfl hfs]
  simp only [List.flatMap_cons, List.flatMap_nil, List.append_nil]
  rw [processSnap_events, hded, hmd1]
  refine ⟨?_, ?_, ?_, ?_⟩
  · rw [List.filter_append]
    have h1 : (mdEvents (some (⟨discountUrlOf qd C p.size, some 40, some 60⟩ :
        MarkdownTransition))).filter isMovedToMarkdown =
          [ChangeEvent.moved_to_markdown (some 40) (some 60)] := rfl
    rw [h1]
    have h2 : (soldOutFilter (some (⟨discountUrlOf qd C p.size, some 40, some 60⟩ :
        MarkdownTransition)) (detectChanges p (parseProductHtml h p))).filter
          isMovedToMarkdown = [] := by
      rw [List.filter_eq_nil_iff]
      intro a ha
      have := detect_no_markdown p (parseProductHtml h p) a (soldOutFilter_mem ha)
      simp [this]
    rw [h2]
    rfl
  · rw [List.countP_append, mdEvents_status]
    have h2 : soldOutFilter (some (⟨discountUrlOf qd C p.size, some 40, some 60⟩ :
        MarkdownTransition)) (detectChanges p (parseProductHtml h p)) =
        (detectChanges p (parseProductHtml h p)).filter (fun c => !(isStatusToSoldOut c)) := rfl
    rw [h2, status_count_filtered p (parseProductHtml h p) hstat]
  · unfold checkAllProducts
    simp only [runCycle, runCycleGo]
    rw [stepItem_fetchSome o now { cache := [], notified := [] } p (parseProductHtml h p) rfl hfs]
    simp only [List.map_cons, List.map_nil]
    rw [processSnap_updated, hded, hmd1, mergeSnapshot_stockStatus]
    rfl
  · unfold checkAllProducts
    simp only [runCycle, runCycleGo]
    rw [stepItem_fetchSome o now { cache := [], notified := [] } p (parseProductHtml h p) rfl hfs]
    simp only [List.map_cons, List.map_nil]
    rw [processSnap_updated, hded, hmd1, mergeSnapshot_markdownUrl]

/-- Claim C1, witnessed at a concrete input: the markdown scenario
resolves to the clearance page with sale price 40 and list price 60. -/
theorem claim1_witness :
    ((runCycle mdOracle 0 [mdProduct]).flatMap (·.events)).filter isMovedToMarkdown =
        [ChangeEvent.moved_to_markdown (some 40) (some 60)] ∧
    ((runCycle mdOracle 0 [mdProduct]).flatMap (·.events)).countP isStatusChange = 0 ∧
    (checkAllProducts mdOracle 0 [mdProduct]).map (·.stockStatus) = ["in_stock"] ∧
    (checkAllProducts mdOracle 0 [mdProduct]).map (·.markdownUrl) =
      [some (discountUrlOf mdQueryData "111" mdProduct.size)] :=
  claim1_markdown_resolution mdOracle 0 mdProduct normalPageHtml mdPageHtml mdQueryData
    mdSku ⟨"111", "Black"⟩ "111" (by decide) (by decide) (by decide) (by decide) (by decide)
    rfl (by decide) (by decide) (by decide) rfl rfl (by decide) (by decide) rfl

-- ── Claim C2: idempotence of a repeated cycle ─────────────────────────

theorem runCycleGo_length (o : Oracle) (now : Nat) :
    ∀ (ps : List Product) (st : StepState), (runCycleGo o now st ps).length = ps.length
  | [], _ => rfl
  | p :: rest, st => by
    simp only [runCycleGo, List.length_cons]
    rw [runCycleGo_length o now rest]

theorem runCycle_length (o : Oracle) (now : Nat) (ps : List Product) :
    (runCycle o now ps).length = ps.length :=
  runCycleGo_length o now ps { cache := [], notified := [] }

theorem checkAllProducts_length (o : Oracle) (now : Nat) (ps : List Product) :
    (checkAllProducts o now ps).length = ps.length := by
  unfold checkAllProducts
  rw [List.length_map, runCycle_length]

theorem dedupFilter_nil (notified : List String) (pid : String) :
    dedupFilter notified pid [] = [] := by
  unfold dedupFilter
  split <;> rfl

theorem soldOutFilter_nil (md : Option MarkdownTransition) : soldOutFilter md [] = [] := by
  unfold soldOutFilter
  split <;> rfl

theorem contains_of_mem {l : List String} {a : String} (h : a ∈ l) : l.contains a = true := by
  simpa using h

/-- A diff of a freshly merged item (no markdown transition) against the
very snapshot that produced it is empty. -/
theorem detect_merge_nil (n : Nat) (p : Product) (nd : Snapshot) (ch : List ChangeEvent) :
    detectChanges (mergeSnapshot n p nd none ch) nd = [] := by
  unfold detectChanges
  have h1 : statusEvents (mergeSnapshot n p nd none ch) nd = [] := by
    unfold statusEvents
    rw [show (mergeSnapshot n p nd none ch).stockStatus = nd.stockStatus from rfl]
    simp
  have h2 : priceEvents (mergeSnapshot n p nd none ch) nd = [] := by
    unfold priceEvents
    rw [show (mergeSnapshot n p nd none ch).currentPrice =
      (match nd.currentPrice with | some q => some q | none => p.currentPrice) from rfl]
    cases hq : nd.currentPrice with
    | none => cases p.currentPrice <;> rfl
    | some q => simp
  have h3 : saleEvents (mergeSnapshot n p nd none ch) nd = [] := by
    unfold saleEvents
    rw [show (mergeSnapshot n p nd none ch).onSale = nd.onSale from rfl]
    simp
  have h4 : newColorEvents (mergeSnapshot n p nd none ch) nd = [] := by
    unfold newColorEvents
    split
    · rw [show (mergeSnapshot n p nd none ch).availableColors =
        (if 0 < nd.availableColors.length then nd.availableColors else p.availableColors)
          from rfl]
      cases hcl : nd.availableColors with
      | nil => rfl
      | cons c cs =>
        rw [if_pos (by simp)]
        have hfil : (c :: cs).filter
            (fun x => ¬ ((c :: cs).map (·.code)).contains x.code) = [] := by
          rw [List.filter_eq_nil_iff]
          intro x hx
          simp only [decide_not, Bool.not_eq_true', decide_eq_false_iff_not, Decidable.not_not]
          exact contains_of_mem (List.mem_map_of_mem _ hx)
        rw [hfil]
        rfl
    · rfl
  rw [h1, h2, h3, h4]
  rfl

/-- The extractor reads only the url, size and color of the tracked
item, all of which a merge preserves. -/
theorem parseProductHtml_ext {h : Html} {a b : Product} (hu : a.url = b.url)
    (hs : a.size = b.size) (hc : a.color = b.color) :
    parseProductHtml h a = parseProductHtml h b := by
  unfold parseProductHtml
  rw [hu, hs, hc]

/-- Whether the markdown resolver finds a transition does not depend on
the stored current price (which only feeds the fallback list price of
the payload). -/
theorem checkMarkdownCore_isSome (o : Oracle) (u sz : String) (c₁ c₂ : Option ℚ)
    (nd : Snapshot) :
    (checkMarkdownCore o u sz c₁ nd).isSome = (checkMarkdownCore o u sz c₂ nd).isSome := by
  unfold checkMarkdownCore
  cases getColorCodeFromUrl u with
  | none => rfl
  | some tc =>
    dsimp only
    split
    · rfl
    · split
      · rfl
      · cases o (mdUrlOf u) with
        | none => rfl
        | some html =>
          dsimp only
          cases html.nextData with
          | none => rfl
          | some ond =>
            cases ond with
            | none => rfl
            | some qd =>
              dsimp only
              cases (qd.colors.getD []).find? (fun c => c.code == tc) with
              | none => rfl
              | some c0 => rfl

theorem checkMarkdown_none_ext {o : Oracle} {a b : Product} {nd : Snapshot}
    (hu : a.url = b.url) (hs : a.size = b.size)
    (h : checkMarkdownTransition o a nd = none) :
    checkMarkdownTransition o b nd = none := by
  unfold checkMarkdownTransition at h ⊢
  rw [← hu, ← hs]
  have hi := checkMarkdownCore_isSome o a.url a.size b.currentPrice a.currentPrice nd
  rw [h] at hi
  cases hx : checkMarkdownCore o a.url a.size b.currentPrice nd with
  | none => rfl
  | some t =>
    rw [hx] at hi
    cases hi

theorem processSnap_md (o : Oracle) (now : Nat) (st : StepState) (p : Product)
    (nd : Snapshot) (c : List (String × Snapshot)) (i : Option String) :
    (processSnap o now st p nd c i).1.md =
      mdDecision o p nd (dedupFilter st.notified p.productId (detectChanges p nd)) := rfl

/-- When the first run resolved no markdown transition for an item, the
markdown decision against the merged item's (empty) second-run diff also
resolves nothing. -/
theorem mdDecision_second_none (o : Oracle) {p m : Product} {nd : Snapshot}
    {ch₁ : List ChangeEvent}
    (hurl : p.url = m.url) (hsz : p.size = m.size)
    (htrack : p.trackNewColors = m.trackNewColors)
    (hmd : mdDecision o p nd ch₁ = none) :
    mdDecision o m nd [] = none := by
  unfold mdDecision at hmd ⊢
  rw [← hurl, ← htrack]
  simp only [List.any_nil, Bool.false_or]
  by_cases ht : p.trackNewColors = true
  · rw [ht]
    simp only [Bool.and_true]
    by_cases hA : (!(strContains p.url "-MD/") && !(strContains p.url ".html")) = true
    · rw [if_pos hA]
      rw [ht] at hmd
      simp only [Bool.or_true, Bool.and_true] at hmd
      rw [if_pos hA] at hmd
      exact checkMarkdown_none_ext hurl hsz hmd
    · rw [if_neg hA]
  · have ht' : p.trackNewColors = false := by
      revert ht
      cases p.trackNewColors <;> simp
    rw [ht']
    simp

/-- Running the per-item step a second time, from the same cache, on the
item merged by a first step: the caches evolve identically, and when the
first step resolved no markdown transition the second step emits no
events. -/
theorem step_pair (o : Oracle) (n₁ n₂ : Nat) (c : List (String × Snapshot))
    (nt₁ nt₂ : List String) (p : Product) :
    (stepItem o n₂ ⟨c, nt₂⟩ (stepItem o n₁ ⟨c, nt₁⟩ p).1.updated).2.cache =
        (stepItem o n₁ ⟨c, nt₁⟩ p).2.cache ∧
      ((stepItem o n₁ ⟨c, nt₁⟩ p).1.md = none →
        (stepItem o n₂ ⟨c, nt₂⟩ (stepItem o n₁ ⟨c, nt₁⟩ p).1.updated).1.events = []) := by
  obtain ⟨hpid, hcol, hsz, _, _, hurl, _, _, htrack, _⟩ := stepItem_identity o n₁ ⟨c, nt₁⟩ p
  cases hl : c.lookup (baseUrlOf p.url) with
  | some s =>
    have e₁ : stepItem o n₁ ⟨c, nt₁⟩ p = processSnap o n₁ ⟨c, nt₁⟩ p s c none :=
      stepItem_cacheHit o n₁ ⟨c, nt₁⟩ p s hl
    have hl₂ : c.lookup (baseUrlOf (stepItem o n₁ ⟨c, nt₁⟩ p).1.updated.url) = some s := by
      rw [← hurl]
      exact hl
    have e₂ : stepItem o n₂ ⟨c, nt₂⟩ (stepItem o n₁ ⟨c, nt₁⟩ p).1.updated =
        processSnap o n₂ ⟨c, nt₂⟩ (stepItem o n₁ ⟨c, nt₁⟩ p).1.updated s c none :=
      stepItem_cacheHit o n₂ ⟨c, nt₂⟩ _ s hl₂
    constructor
    · rw [e₂, e₁]
      rfl
    · intro hmd
      rw [e₁, processSnap_md] at hmd
      have hm : (stepItem o n₁ ⟨c, nt₁⟩ p).1.updated =
          mergeSnapshot n₁ p s none
            (soldOutFilter none (dedupFilter nt₁ p.productId (detectChanges p s))) := by
        rw [e₁, processSnap_updated, hmd]
      have hdet : detectChanges (stepItem o n₁ ⟨c, nt₁⟩ p).1.updated s = [] := by
        rw [hm]
        exact detect_merge_nil ..
      rw [e₂, processSnap_events, hdet, dedupFilter_nil, soldOutFilter_nil]
      have hmd₂ : mdDecision o (stepItem o n₁ ⟨c, nt₁⟩ p).1.updated s [] = none :=
        mdDecision_second_none o hurl hsz htrack hmd
      rw [hmd₂]
      rfl
  | none =>
    cases hf : fetchProductStatus o p with
    | some nd =>
      have e₁ : stepItem o n₁ ⟨c, nt₁⟩ p =
          processSnap o n₁ ⟨c, nt₁⟩ p nd ((baseUrlOf p.url, nd) :: c) (some p.url) :=
        stepItem_fetchSome o n₁ ⟨c, nt₁⟩ p nd hl hf
      have hf₂ : fetchProductStatus o (stepItem o n₁ ⟨c, nt₁⟩ p).1.updated = some nd := by
        unfold fetchProductStatus at hf ⊢
        rw [← hurl]
        cases ho : o p.url with
        | none =>
          rw [ho] at hf
          simp at hf
        | some h =>
          rw [ho] at hf
          simp only [Option.map_some'] at hf ⊢
          rw [parseProductHtml_ext hurl.symm hsz.symm hcol.symm]
          exact hf
      have hl₂ : c.lookup (baseUrlOf (stepItem o n₁ ⟨c, nt₁⟩ p).1.updated.url) = none := by
        rw [← hurl]
        exact hl
      have e₂ : stepItem o n₂ ⟨c, nt₂⟩ (stepItem o n₁ ⟨c, nt₁⟩ p).1.updated =
          processSnap o n₂ ⟨c, nt₂⟩ (stepItem o n₁ ⟨c, nt₁⟩ p).1.updated nd
            ((baseUrlOf (stepItem o n₁ ⟨c, nt₁⟩ p).1.updated.url, nd) :: c)
            (some (stepItem o n₁ ⟨c, nt₁⟩ p).1.updated.url) :=
        stepItem_fetchSome o n₂ ⟨c, nt₂⟩ _ nd hl₂ hf₂
      constructor
      · rw [e₂, processSnap_state_cache, ← hurl, e₁, processSnap_state_cache]
      · intro hmd
        rw [e₁, processSnap_md] at hmd
        have hm : (stepItem o n₁ ⟨c, nt₁⟩ p).1.updated =
            mergeSnapshot n₁ p nd none
              (soldOutFilter none (dedupFilter nt₁ p.productId (detectChanges p nd))) := by
          rw [e₁, processSnap_updated, hmd]
        have hdet : detectChanges (stepItem o n₁ ⟨c, nt₁⟩ p).1.updated nd = [] := by
          rw [hm]
          exact detect_merge_nil ..
        rw [e₂, processSnap_events, hdet, dedupFilter_nil, soldOutFilter_nil]
        have hmd₂ : mdDecision o (stepItem o n₁ ⟨c, nt₁⟩ p).1.updated nd [] = none :=
          mdDecision_second_none o hurl hsz htrack hmd
        rw [hmd₂]
        rfl
    | none =>
      have e₁ : stepItem o n₁ ⟨c, nt₁⟩ p =
          ({ product := p, updated := p, snap := none, events := [],
             md := none, issuedFetch := some p.url },
           { cache := c, notified := nt₁ }) :=
        stepItem_fetchNone o n₁ ⟨c, nt₁⟩ p hl hf
      have e₂ : stepItem o n₂ ⟨c, nt₂⟩ (stepItem o n₁ ⟨c, nt₁⟩ p).1.updated =
          ({ product := (stepItem o n₁ ⟨c, nt₁⟩ p).1.updated,
             updated := (stepItem o n₁ ⟨c, nt₁⟩ p).1.updated, snap := none, events := [],
             md := none, issuedFetch := some (stepItem o n₁ ⟨c, nt₁⟩ p).1.updated.url },
           { cache := c, notified := nt₂ }) := by
        refine stepItem_fetchNone o n₂ ⟨c, nt₂⟩ _ ?_ ?_
        · rw [← hurl]
          exact hl
        · have ho : o p.url = none := fetchProductStatus_none.mp hf
          unfold fetchProductStatus
          rw [← hurl, ho]
          rfl
      constructor
      · rw [e₂, e₁]
      · intro _
        rw [e₂]

/-- Running a cycle segment twice from the same cache against an
unchanged oracle: items whose first pass resolved no markdown transition
produce no events on the second pass. -/
theorem runCycleGo_second (o : Oracle) (n₁ n₂ : Nat) :
    ∀ (ps : List Product) (c : List (String × Snapshot)) (nt₁ nt₂ : List String),
      List.Forall₂ (fun r₁ r₂ => r₁.md = none → r₂.events = [])
        (runCycleGo o n₁ ⟨c, nt₁⟩ ps)
        (runCycleGo o n₂ ⟨c, nt₂⟩ ((runCycleGo o n₁ ⟨c, nt₁⟩ ps).map (·.updated)))
  | [], c, nt₁, nt₂ => by simp [runCycleGo]
  | p :: rest, c, nt₁, nt₂ => by
    simp only [runCycleGo, List.map_cons]
    refine List.Forall₂.cons ((step_pair o n₁ n₂ c nt₁ nt₂ p).2) ?_
    have hcc := (step_pair o n₁ n₂ c nt₁ nt₂ p).1
    have hst : (stepItem o n₂ ⟨c, nt₂⟩ (stepItem o n₁ ⟨c, nt₁⟩ p).1.updated).2 =
        (⟨(stepItem o n₁ ⟨c, nt₁⟩ p).2.cache,
          (stepItem o n₂ ⟨c, nt₂⟩ (stepItem o n₁ ⟨c, nt₁⟩ p).1.updated).2.notified⟩ :
            StepState) := by
      rw [← hcc]
    rw [hst]
    exact runCycleGo_second o n₁ n₂ rest (stepItem o n₁ ⟨c, nt₁⟩ p).2.cache
      (stepItem o n₁ ⟨c, nt₁⟩ p).2.notified
      (stepItem o n₂ ⟨c, nt₂⟩ (stepItem o n₁ ⟨c, nt₁⟩ p).1.updated).2.notified

/-- Claim C2 is false as stated: in the markdown scenario the stored
status was reset to in_stock while the unchanged page still lacks the
tracked color, so the second cycle detects the sold-out flip again,
re-resolves the markdown transition, and re-emits the moved_to_markdown
event — the second run's event list is not empty. -/
theorem claim2_counterexample :
    cycleEvents mdOracle 1 (checkAllProducts mdOracle 0 [mdProduct]) =
        [ChangeEvent.moved_to_markdown (some 40) (some 60)] ∧
      cycleEvents mdOracle 1 (checkAllProducts mdOracle 0 [mdProduct]) ≠ [] := by
  refine ⟨by decide, by decide⟩

/-- Claim C2 as amended: running a full cycle twice in a row against an
unchanged remote page produces zero ChangeEvents on the second run for
every item whose first-run processing resolved no markdown transition;
an item whose color moved to clearance re-emits its moved_to_markdown
event on every cycle. -/
theorem claim2_amended (o : Oracle) (n₁ n₂ : Nat) (ps : List Product) :
    List.Forall₂ (fun r₁ r₂ => r₁.md = none → r₂.events = [])
      (runCycle o n₁ ps) (runCycle o n₂ (checkAllProducts o n₁ ps)) :=
  runCycleGo_second o n₁ n₂ ps [] [] []

/-- Claim C10: one run of the check cycle persists a list of the same
length and order as the input, with every item's identity and settings
fields (productId, color, size, name, productLine, url, region, image,
trackNewColors, addedAt) unchanged; only observed-state and bookkeeping
fields may differ. -/
theorem claim10_frame (o : Oracle) (now : Nat) (ps : List Product) :
    (checkAllProducts o now ps).length = ps.length ∧
      List.Forall₂ sameIdentity ps (checkAllProducts o now ps) := by
  have h := runCycleGo_identity o now { cache := [], notified := [] } ps
  exact ⟨(List.Forall₂.length_eq h).symm, h⟩

end LuluTracker
